import Mathlib

/-!
# toyui (kiui): widget state, dirty tracking, dropdown capture, frame tick, BoxFloat

A shallow embedding of the parts of `src/toyui` that the claims are about:

* `Widget/Widget.cpp`  : `nextFrame`, `markDirty`, `toggleState`, `enableState`,
  `disableState`, `updateState`, `pinpoint`, `controlEvent`, `receiveEvent`, the four
  mouse handlers;
* `Button/Dropdown.cpp`: `Dropdown::Dropdown`, `dropdown`, `dropup`, the triggers, and
  `DropdownInput::select`, `selected`, `handleAdd`;
* `UiWindow.cpp`       : `UiWindow::nextFrame`, `UiWindow::resize`;
* `Style/Dim.h`        : `BoxFloat`;
* `Nano/NanoRenderer.cpp`: `clipTest`, `breakTextReturns`, `breakText`.

Conventions of the embedding.

* `float` values are exact rationals (`ℚ`); the claims settled here compare
  components, add them, or pass coordinates through.
* A `char` is its code; a pointer into a text is an offset from `text.c_str()`.
* Loops whose termination is part of a claim take fuel and return an option.
* `unsigned int` bit masks (`WidgetState`) are natural numbers with the bitwise
  operators of `Nat`; xor and and never leave the 32 bits of their operands.
* Objects whose classes are not among the sources (`Frame`, `Layer`, `DrawFrame`,
  the list widget of a dropdown, the windows behind a `UiWindow`) are records that
  hold the fields the spec gives them together with the ordered log of the member
  calls they received, so that both "what was called, in which order" and "which
  state resulted" can be stated.
* A method `void C::f(args)` becomes `C.f : C → args → C`; a method that also
  returns a value returns a pair.
-/

namespace toy

/-! ## Frame (modelled from the spec) -/

/-- Modelled from the spec: the dirty levels of `Frame` (Frame.h is not among the
sources), "ordered enumeration NONE < CONTENT < MAPPING". Levels are numbers so that
the order of the enumeration is the order of `Nat` and `if(dirty())` is `≠ 0`. -/
abbrev Dirty := Nat

/-- Modelled from the spec: the level NONE of the dirty enumeration, its first value. -/
def DIRTY_NONE : Dirty := 0

/-- Modelled from the spec: the level CONTENT of the dirty enumeration (`Frame::DIRTY_CONTENT`). -/
def DIRTY_CONTENT : Dirty := 1

/-- Modelled from the spec: the level MAPPING of the dirty enumeration (`Frame::DIRTY_MAPPING`). -/
def DIRTY_MAPPING : Dirty := 2

/-- Member calls received by a frame, by its content (`DrawFrame`) or by its owning
layer, in the order `Widget.cpp` issues them. -/
inductive FrameCall where
  | setRedraw
  | clearDirty
  | resetStyle
  | setDirty (level : Dirty)
  | updateInkstyle (skin : Nat)
  | absolutePosition
  | pinpoint (x y : ℚ) (recurse : Bool)
  deriving DecidableEq, Repr

/-- Style record: `updated()` stamp and the sub-skin table `subskin(state)`; an
inkstyle is named by a number. -/
structure Style where
  m_updated : Nat
  subskin : Nat → Nat

/-- Reads the stamp: `Style::updated()`. -/
def Style.updated (s : Style) : Nat := s.m_updated

/-- Modelled from the spec: `Frame` (Frame.h / Frame.cpp are not among the sources).
The fields are the ones the spec's data model gives: the dirty level, the cached
`styleStamp`, the content inkstyle, the redraw flag of the owning `Layer`, the
value `absolutePosition()` currently returns and the hit-test `pinpoint(x,y,recurse)`
as an oracle (a hit frame is named by the handle of the widget that owns it, the
ownership being one-to-one, so `frame->widget()` is the identity on handles).
`calls` is the log of member calls received. -/
structure Frame where
  d_dirty : Dirty
  d_styleStamp : Nat
  inkstyle : Nat
  layerRedraw : Bool
  absolute : ℚ × ℚ
  hit : ℚ → ℚ → Bool → Option Nat
  calls : List FrameCall

/-- Modelled from the spec: `Frame::dirty()`, the current dirty level. -/
def Frame.dirty (f : Frame) : Dirty := f.d_dirty

/-- Modelled from the spec: `Frame::styleStamp()`, the stamp of the style last applied. -/
def Frame.styleStamp (f : Frame) : Nat := f.d_styleStamp

/-- Modelled from the spec: `Frame::setDirty(level)` "raises the frame's dirty level to
at least `level` (never lowers it)". -/
def Frame.setDirty (f : Frame) (level : Dirty) : Frame :=
  { f with d_dirty := max f.d_dirty level, calls := f.calls ++ [FrameCall.setDirty level] }

/-- Modelled from the spec: `Frame::clearDirty()` "resets to NONE". -/
def Frame.clearDirty (f : Frame) : Frame :=
  { f with d_dirty := DIRTY_NONE, calls := f.calls ++ [FrameCall.clearDirty] }

/-- Modelled from the spec: `frame.layer().setRedraw()` sets the single redraw flag of
the owning Layer. -/
def Frame.layerSetRedraw (f : Frame) : Frame :=
  { f with layerRedraw := true, calls := f.calls ++ [FrameCall.setRedraw] }

/-- Modelled from the spec: `Frame::resetStyle()` "reset/reapply its style and content
inkstyle": the frame caches the stamp of the style it applies and takes the sub-skin
of the widget's state. The style is the one the owning widget points to (`m_style`),
the state the owning widget's `m_state`. -/
def Frame.resetStyle (f : Frame) (style : Style) (state : Nat) : Frame :=
  { f with d_styleStamp := style.updated, inkstyle := style.subskin state,
           calls := f.calls ++ [FrameCall.resetStyle] }

/-- Modelled from the spec: `frame.content().updateInkstyle(skin)` makes `skin` the
content inkstyle. -/
def Frame.updateInkstyle (f : Frame) (skin : Nat) : Frame :=
  { f with inkstyle := skin, calls := f.calls ++ [FrameCall.updateInkstyle skin] }

/-- Modelled from the spec: `Frame::absolutePosition()` returns the accumulated position. -/
def Frame.absolutePosition (f : Frame) : (ℚ × ℚ) × Frame :=
  (f.absolute, { f with calls := f.calls ++ [FrameCall.absolutePosition] })

/-- Modelled from the spec: `Frame::pinpoint(x, y, recurse)`, the hit test of the frame
and its children; its result is the oracle `hit`. -/
def Frame.pinpoint (f : Frame) (x y : ℚ) (recurse : Bool) : Option Nat × Frame :=
  (f.hit x y recurse, { f with calls := f.calls ++ [FrameCall.pinpoint x y recurse] })

/-! ## Widget (Widget/Widget.cpp) -/

/-- The members of `Widget` the modelled methods read or write: `m_state`,
`m_style` (the pointed style) and `m_frame` (the owned frame). -/
structure Widget where
  m_state : Nat
  m_style : Style
  m_frame : Frame

/-- `Widget::nextFrame(tick, step)`, Widget.cpp lines 170-179. -/
def Widget.nextFrame (w : Widget) (_tick _step : Nat) : Widget :=
  let f0 := w.m_frame
  let f1 := if f0.dirty ≠ 0 then f0.layerSetRedraw else f0
  let f2 := f1.clearDirty
  let f3 := if w.m_style.updated > f2.styleStamp then f2.resetStyle w.m_style w.m_state else f2
  { w with m_frame := f3 }

/-- `Widget::markDirty()`, Widget.cpp lines 220-223. -/
def Widget.markDirty (w : Widget) : Widget :=
  { w with m_frame := w.m_frame.setDirty DIRTY_CONTENT }

/-- `Widget::updateState()`, Widget.cpp lines 243-247. -/
def Widget.updateState (w : Widget) : Widget :=
  { w with m_frame := (w.m_frame.updateInkstyle (w.m_style.subskin w.m_state)).setDirty DIRTY_CONTENT }

/-- `Widget::toggleState(state)`, Widget.cpp lines 225-229. -/
def Widget.toggleState (w : Widget) (state : Nat) : Widget :=
  Widget.updateState { w with m_state := w.m_state ^^^ state }

/-- `Widget::enableState(state)`, Widget.cpp lines 231-235. -/
def Widget.enableState (w : Widget) (state : Nat) : Widget :=
  if w.m_state &&& state = 0 then w.toggleState state else w

/-- `Widget::disableState(state)`, Widget.cpp lines 237-241. -/
def Widget.disableState (w : Widget) (state : Nat) : Widget :=
  if w.m_state &&& state ≠ 0 then w.toggleState state else w

/-- `Widget::pinpoint(x, y)`, Widget.cpp lines 249-256: the returned widget handle (or
none for `nullptr`) together with the widget, whose frame has logged the calls made. -/
def Widget.pinpoint (w : Widget) (x y : ℚ) : Option Nat × Widget :=
  if w.m_frame.dirty ≥ DIRTY_MAPPING then (none, w)
  else
    let a := w.m_frame.absolutePosition
    let r := a.2.pinpoint (x - a.1.1) (y - a.1.2) true
    (r.1, { w with m_frame := r.2 })

/-- The enumerators of `WidgetState` that the handlers name. Widget.h is not among the
sources, so their bit values are parameters of the model. -/
structure WidgetStates where
  NOSTATE : Nat
  HOVERED : Nat
  PRESSED : Nat

/-- `Widget::mouseEntered(mouseEvent)`, Widget.cpp lines 313-317 (the event is unused). -/
def Widget.mouseEntered (E : WidgetStates) (w : Widget) : Widget := w.enableState E.HOVERED

/-- `Widget::mouseLeaved(mouseEvent)`, Widget.cpp lines 319-323 (the event is unused). -/
def Widget.mouseLeaved (E : WidgetStates) (w : Widget) : Widget := w.disableState E.HOVERED

/-- `Widget::mousePressed(mouseEvent)`, Widget.cpp lines 325-329 (the event is unused). -/
def Widget.mousePressed (E : WidgetStates) (w : Widget) : Widget := w.enableState E.PRESSED

/-- `Widget::mouseReleased(mouseEvent)`, Widget.cpp lines 331-335 (the event is unused). -/
def Widget.mouseReleased (E : WidgetStates) (w : Widget) : Widget := w.disableState E.PRESSED

/-- The four pointer handlers of a widget, as input events. -/
inductive MouseHandler where
  | mouseEntered
  | mouseLeaved
  | mousePressed
  | mouseReleased
  deriving DecidableEq, Repr

/-- Delivers one handler call to the widget. -/
def Widget.handle (E : WidgetStates) (w : Widget) : MouseHandler → Widget
  | MouseHandler.mouseEntered => w.mouseEntered E
  | MouseHandler.mouseLeaved => w.mouseLeaved E
  | MouseHandler.mousePressed => w.mousePressed E
  | MouseHandler.mouseReleased => w.mouseReleased E

/-- Delivers a sequence of handler calls, first to last. -/
def Widget.handleAll (E : WidgetStates) (w : Widget) (evs : List MouseHandler) : Widget :=
  evs.foldl (Widget.handle E) w

/-- A state flag (or mask) is set in a state mask: `m & s` is non-zero. -/
def flagSet (m s : Nat) : Prop := m &&& s ≠ 0

instance (m s : Nat) : Decidable (flagSet m s) := by unfold flagSet; infer_instance

/-! ## Dropdown (Button/Dropdown.cpp) -/

/-- The control modes the sources name (`CM_MODAL` in Dropdown.cpp, `CM_ABSOLUTE` in
Widget.cpp); the enumeration itself is declared in a header that is not among the
sources. -/
inductive ControlMode where
  | CM_MODAL
  | CM_ABSOLUTE
  deriving DecidableEq, Repr

/-- Member calls received by the list widget `m_list` of a dropdown (on the widget, or
on its frame for `moveToTop`). -/
inductive ListCall where
  | show
  | hide
  | moveToTop
  | takeControl (mode : ControlMode)
  | yieldControl
  deriving DecidableEq, Repr

/-- Modelled from the spec: the list widget of a dropdown (`DropdownList`, a `Stack`
on a `LAYER` frame; Stack, Widget.h and the input classes are not among the sources):
whether its frame is shown, and the log of the calls it received. -/
structure DropdownList where
  visible : Bool
  calls : List ListCall
  deriving DecidableEq, Repr

/-- Modelled from the spec: `Widget::show()` on the list (`m_frame->show()`): the frame is shown. -/
def DropdownList.show (l : DropdownList) : DropdownList :=
  { visible := true, calls := l.calls ++ [ListCall.show] }

/-- Modelled from the spec: `Widget::hide()` on the list (`m_frame->hide()`): the frame is hidden. -/
def DropdownList.hide (l : DropdownList) : DropdownList :=
  { visible := false, calls := l.calls ++ [ListCall.hide] }

/-- Modelled from the spec: `frame().as<Layer>().moveToTop()` on the list; it reorders
the layers and is only logged. -/
def DropdownList.moveToTop (l : DropdownList) : DropdownList :=
  { l with calls := l.calls ++ [ListCall.moveToTop] }

/-- Modelled from the spec: `takeControl(mode)` on the list, acquiring input control; logged. -/
def DropdownList.takeControl (l : DropdownList) (mode : ControlMode) : DropdownList :=
  { l with calls := l.calls ++ [ListCall.takeControl mode] }

/-- Modelled from the spec: `yieldControl()` on the list, releasing input control; logged. -/
def DropdownList.yieldControl (l : DropdownList) : DropdownList :=
  { l with calls := l.calls ++ [ListCall.yieldControl] }

/-- The members of `Dropdown` its methods write: the list `m_list` and `m_down`. -/
structure Dropdown where
  m_list : DropdownList
  m_down : Bool
  deriving DecidableEq, Repr

/-- `Dropdown::Dropdown(parent, type)`, Dropdown.cpp lines 52-60: the list is
constructed (shown, like every new frame, and without calls), `m_down` is false, and
the body hides the list. -/
def Dropdown.new : Dropdown :=
  { m_list := DropdownList.hide { visible := true, calls := [] }, m_down := false }

/-- `Dropdown::dropup()`, Dropdown.cpp lines 73-78. -/
def Dropdown.dropup (d : Dropdown) : Dropdown :=
  { m_list := d.m_list.hide.yieldControl, m_down := false }

/-- `Dropdown::dropdown(modal)`, Dropdown.cpp lines 80-86; the argument is not read. -/
def Dropdown.dropdown (d : Dropdown) (_modal : Bool) : Dropdown :=
  { m_list := ((d.m_list.show).moveToTop).takeControl ControlMode.CM_MODAL, m_down := true }

/-- `DropdownList::leftClick(mouseEvent)`, Dropdown.cpp lines 40-44, acting on the
dropdown `m_dropdown` that owns the list. -/
def DropdownList.leftClick (d : Dropdown) : Dropdown := d.dropup

/-- The trigger bound in the constructor to the dropdown button itself, to `m_header`
and to `m_toggle`: `std::bind(&Dropdown::dropdown, this, true)`. -/
def Dropdown.openTrigger (d : Dropdown) : Dropdown := d.dropdown true

/-- The trigger `Dropdown::addChoice` installs on a choice, Dropdown.cpp line 64:
`[this](Widget& widget) { this->dropup(); }`. -/
def Dropdown.choiceTrigger (d : Dropdown) : Dropdown := d.dropup

/-- The calls that reach `Dropdown::dropdown` or `Dropdown::dropup`. -/
inductive DropdownOp where
  | dropdown (modal : Bool)
  | dropup
  | buttonTrigger
  | headerTrigger
  | toggleTrigger
  | listLeftClick
  | choiceTrigger
  deriving DecidableEq, Repr

/-- Runs one call on the dropdown. -/
def Dropdown.step (d : Dropdown) : DropdownOp → Dropdown
  | DropdownOp.dropdown modal => d.dropdown modal
  | DropdownOp.dropup => d.dropup
  | DropdownOp.buttonTrigger => d.openTrigger
  | DropdownOp.headerTrigger => d.openTrigger
  | DropdownOp.toggleTrigger => d.openTrigger
  | DropdownOp.listLeftClick => DropdownList.leftClick d
  | DropdownOp.choiceTrigger => d.choiceTrigger

/-- Runs a sequence of calls, first to last. -/
def Dropdown.run (d : Dropdown) (ops : List DropdownOp) : Dropdown :=
  ops.foldl Dropdown.step d

/-- Whether the call is one that opens the dropdown (reaches `Dropdown::dropdown`). -/
def DropdownOp.opens : DropdownOp → Bool
  | DropdownOp.dropdown _ => true
  | DropdownOp.buttonTrigger => true
  | DropdownOp.headerTrigger => true
  | DropdownOp.toggleTrigger => true
  | _ => false

/-- Number of `takeControl` calls the list received. -/
def takeCount (l : DropdownList) : Nat :=
  (l.calls.filter (fun c => match c with | ListCall.takeControl _ => true | _ => false)).length

/-- Number of `yieldControl` calls the list received. -/
def yieldCount (l : DropdownList) : Nat :=
  (l.calls.filter (fun c => match c with | ListCall.yieldControl => true | _ => false)).length

/-- The control calls (takeControl / yieldControl) in a log of list calls, in order. -/
def controlCalls (cs : List ListCall) : List ListCall :=
  cs.filter (fun c => match c with
    | ListCall.takeControl _ => true
    | ListCall.yieldControl => true
    | _ => false)

/-- A sequence of calls that opens the dropdown only while it is closed and closes it
only while it is open, checked along the run from the state `d`. -/
def Dropdown.Alternating (d : Dropdown) : List DropdownOp → Prop
  | [] => True
  | op :: ops => (op.opens = !d.m_down) ∧ Dropdown.Alternating (d.step op) ops

/-! ## UiWindow (UiWindow.cpp) -/

/-- Calls a `UiWindow` issues on its collaborators (input window, render window,
clock, root sheet), in order. -/
inductive UiCall where
  | inputWindowResize (width height : Nat)
  | rootSheetFrameSetSize (width height : ℚ)
  | rootSheetTargetRender
  | renderWindowNextFrame
  | inputWindowNextFrame
  | clockReadTick
  | clockStepTick
  | rootSheetNextFrame (tick delta : Nat)
  deriving DecidableEq, Repr

/-- The members of `UiWindow` that `nextFrame` and `resize` read or write, the size the
render window currently reports (`m_context->renderWindow().width()/height()`), and
the log of calls issued on the collaborators. -/
structure UiWindow where
  m_width : ℚ
  m_height : ℚ
  renderWidth : Nat
  renderHeight : Nat
  m_shutdownRequested : Bool
  calls : List UiCall
  deriving DecidableEq, Repr

/-- The conversion `size_t(x)` of a non-negative float: truncation. -/
def toSizeT (x : ℚ) : Nat := (Rat.floor x).toNat

/-- `UiWindow::resize(width, height)`, UiWindow.cpp lines 158-166. -/
def UiWindow.resize (u : UiWindow) (width height : Nat) : UiWindow :=
  { u with m_width := (width : ℚ), m_height := (height : ℚ),
           calls := u.calls ++ [UiCall.inputWindowResize width height,
                                UiCall.rootSheetFrameSetSize (width : ℚ) (height : ℚ)] }

/-- `UiWindow::nextFrame()`, UiWindow.cpp lines 168-187; `tick` and `delta` are the
values `m_clock.readTick()` and `m_clock.stepTick()` return. -/
def UiWindow.nextFrame (u : UiWindow) (tick delta : Nat) : Bool × UiWindow :=
  let u1 := if u.renderWidth ≠ toSizeT u.m_width ∨ u.renderHeight ≠ toSizeT u.m_height
            then u.resize u.renderWidth u.renderHeight else u
  let u2 := { u1 with calls := u1.calls ++ [UiCall.rootSheetTargetRender,
                                            UiCall.renderWindowNextFrame,
                                            UiCall.inputWindowNextFrame,
                                            UiCall.clockReadTick,
                                            UiCall.clockStepTick,
                                            UiCall.rootSheetNextFrame tick delta] }
  (!u2.m_shutdownRequested, u2)

/-- The calls issued during one tick: the log of `nextFrame` started on an empty log. -/
def UiWindow.tickCalls (u : UiWindow) (tick delta : Nat) : List UiCall :=
  (UiWindow.nextFrame { u with calls := [] } tick delta).2.calls

/-- In the log `l`, every call `a` comes before every call `b`, and both occur. -/
def Precedes (a b : UiCall) (l : List UiCall) : Prop :=
  a ∈ l ∧ b ∈ l ∧ ∀ i j : Nat, l[i]? = some a → l[j]? = some b → i < j

/-! ## BoxFloat (Style/Dim.h) -/

/-- `BoxFloat`, Dim.h lines 151-212: `d_values` (a `std::array<float, 4>`), `d_uniform`
and `d_null`, in declaration order. -/
structure BoxFloat where
  d_values : Fin 4 → ℚ
  d_uniform : Bool
  d_null : Bool

/-- `BoxFloat::cnull()`, Dim.h line 189: all four components compare equal to zero. -/
def BoxFloat.cnullOf (v : Fin 4 → ℚ) : Bool :=
  decide (v 0 = 0) && decide (v 1 = 0) && decide (v 2 = 0) && decide (v 3 = 0)

/-- `BoxFloat::cnull()`, Dim.h line 189. -/
def BoxFloat.cnull (b : BoxFloat) : Bool := BoxFloat.cnullOf b.d_values

/-- `BoxFloat::null()`, Dim.h line 188. -/
def BoxFloat.null (b : BoxFloat) : Bool := b.d_null

/-- `BoxFloat(float x0, float y0, float x1, float y1)`, Dim.h line 154: the members are
initialised in declaration order, so `cnull()` reads the components just stored. -/
def BoxFloat.mk4 (x0 y0 x1 y1 : ℚ) : BoxFloat :=
  { d_values := ![x0, y0, x1, y1], d_uniform := false, d_null := BoxFloat.cnullOf ![x0, y0, x1, y1] }

/-- `BoxFloat(int x0, int y0, int x1, int y1)`, Dim.h line 156: delegates to the float
constructor. -/
def BoxFloat.mkInt (x0 y0 x1 y1 : Int) : BoxFloat :=
  BoxFloat.mk4 (x0 : ℚ) (y0 : ℚ) (x1 : ℚ) (y1 : ℚ)

/-- `BoxFloat(float uniform)`, Dim.h line 157. -/
def BoxFloat.mkUniform (uniform : ℚ) : BoxFloat :=
  BoxFloat.mk4 uniform uniform uniform uniform

/-- `BoxFloat()`, Dim.h line 158: `BoxFloat(0.f)`, then `d_null = true`. -/
def BoxFloat.default : BoxFloat :=
  { BoxFloat.mkUniform 0 with d_null := true }

/-- `BoxFloat::assign(x0, y0, x1, y1)`, Dim.h line 191. -/
def BoxFloat.assign (b : BoxFloat) (x0 y0 x1 y1 : ℚ) : BoxFloat :=
  { b with d_values := ![x0, y0, x1, y1], d_null := BoxFloat.cnullOf ![x0, y0, x1, y1] }

/-- `BoxFloat::assign(val)`, Dim.h line 192. -/
def BoxFloat.assignUniform (b : BoxFloat) (val : ℚ) : BoxFloat :=
  { b with d_values := ![val, val, val, val], d_null := BoxFloat.cnullOf ![val, val, val, val] }

/-- `BoxFloat::clear()`, Dim.h line 185. -/
def BoxFloat.clear (b : BoxFloat) : BoxFloat :=
  { b.assignUniform 0 with d_null := true }

/-! ## Protocol predicates and sample objects -/

/-- A handler sequence in which `mousePressed` is delivered only while HOVERED is set
and `mouseLeaved` only while PRESSED is clear, checked along the run from `w`. -/
def Widget.Disciplined (E : WidgetStates) (w : Widget) : List MouseHandler → Prop
  | [] => True
  | ev :: evs =>
      (ev = MouseHandler.mousePressed → flagSet w.m_state E.HOVERED) ∧
      (ev = MouseHandler.mouseLeaved → ¬ flagSet w.m_state E.PRESSED) ∧
      Widget.Disciplined E (w.handle E ev) evs

/-- A sample assignment of the state flags: NOSTATE is 0, HOVERED bit 3, PRESSED bit 5. -/
def sampleStates : WidgetStates := { NOSTATE := 0, HOVERED := 8, PRESSED := 32 }

/-- A sample style: stamp 7, sub-skin of state `m` named `100 + m`. -/
def sampleStyle : Style := { m_updated := 7, subskin := fun m => 100 + m }

/-- A sample frame with the given dirty level and style stamp; its hit test finds
widget 42 everywhere. -/
def sampleFrame (dirty : Dirty) (stamp : Nat) : Frame :=
  { d_dirty := dirty, d_styleStamp := stamp, inkstyle := 100, layerRedraw := false,
    absolute := (10, 20), hit := fun _ _ _ => some 42, calls := [] }

/-- A sample widget with the given state mask, dirty level and style stamp. -/
def sampleWidget (state : Nat) (dirty : Dirty) (stamp : Nat) : Widget :=
  { m_state := state, m_style := sampleStyle, m_frame := sampleFrame dirty stamp }

/-- A sample window: 800 x 600, matching its render window, not shutting down. -/
def sampleWindow : UiWindow :=
  { m_width := 800, m_height := 600, renderWidth := 800, renderHeight := 600,
    m_shutdownRequested := false, calls := [] }

/-! ## BoxFloat: accessors, setters, subscripts, intersects (Style/Dim.h) -/

/-- `BoxFloat::v0()`, Dim.h line 180. -/
def BoxFloat.v0 (b : BoxFloat) : ℚ := b.d_values 0

/-- `BoxFloat::v1()`, Dim.h line 181. -/
def BoxFloat.v1 (b : BoxFloat) : ℚ := b.d_values 1

/-- `BoxFloat::v2()`, Dim.h line 182. -/
def BoxFloat.v2 (b : BoxFloat) : ℚ := b.d_values 2

/-- `BoxFloat::v3()`, Dim.h line 183. -/
def BoxFloat.v3 (b : BoxFloat) : ℚ := b.d_values 3

/-- `BoxFloat::x()`, Dim.h line 170. -/
def BoxFloat.x (b : BoxFloat) : ℚ := b.d_values 0

/-- `BoxFloat::y()`, Dim.h line 171. -/
def BoxFloat.y (b : BoxFloat) : ℚ := b.d_values 1

/-- `BoxFloat::w()`, Dim.h line 172. -/
def BoxFloat.w (b : BoxFloat) : ℚ := b.d_values 2

/-- `BoxFloat::h()`, Dim.h line 173. -/
def BoxFloat.h (b : BoxFloat) : ℚ := b.d_values 3

/-- `BoxFloat::x1()`, Dim.h line 167. -/
def BoxFloat.x1 (b : BoxFloat) : ℚ := b.d_values 2

/-- `BoxFloat::y1()`, Dim.h line 168. -/
def BoxFloat.y1 (b : BoxFloat) : ℚ := b.d_values 3

/-- `BoxFloat::operator=(other)`, Dim.h line 160: `assign` of the other box's components. -/
def BoxFloat.copyAssign (b other : BoxFloat) : BoxFloat :=
  b.assign other.v0 other.v1 other.v2 other.v3

/-- The implicit copy constructor of `BoxFloat`: a member-wise copy. -/
def BoxFloat.copy (other : BoxFloat) : BoxFloat :=
  { d_values := other.d_values, d_uniform := other.d_uniform, d_null := other.d_null }

/-- `float operator[](size_t i) const`, Dim.h line 162; an index is one of the four
positions of the array. -/
def BoxFloat.subscriptConst (b : BoxFloat) (i : Fin 4) : ℚ := b.d_values i

/-- `float& operator[](size_t i)`, Dim.h line 163: sets `d_null = false` and returns a
reference to component `i`. The pair is the component read through the reference and
the box after the call. -/
def BoxFloat.subscript (b : BoxFloat) (i : Fin 4) : ℚ × BoxFloat :=
  (b.d_values i, { b with d_null := false })

/-- The statement `box[i] = v`: `operator[]` (Dim.h line 163), then a store through the
returned reference. -/
def BoxFloat.subscriptWrite (b : BoxFloat) (i : Fin 4) (v : ℚ) : BoxFloat :=
  { (b.subscript i).2 with d_values := Function.update (b.subscript i).2.d_values i v }

/-- `BoxFloat::setX0(x0)`, Dim.h line 194. -/
def BoxFloat.setX0 (b : BoxFloat) (x0 : ℚ) : BoxFloat :=
  { b with d_values := Function.update b.d_values 0 x0,
           d_null := BoxFloat.cnullOf (Function.update b.d_values 0 x0) }

/-- `BoxFloat::setY0(y0)`, Dim.h line 195. -/
def BoxFloat.setY0 (b : BoxFloat) (y0 : ℚ) : BoxFloat :=
  { b with d_values := Function.update b.d_values 1 y0,
           d_null := BoxFloat.cnullOf (Function.update b.d_values 1 y0) }

/-- `BoxFloat::setX1(x1)`, Dim.h line 196. -/
def BoxFloat.setX1 (b : BoxFloat) (x1 : ℚ) : BoxFloat :=
  { b with d_values := Function.update b.d_values 2 x1,
           d_null := BoxFloat.cnullOf (Function.update b.d_values 2 x1) }

/-- `BoxFloat::setY1(y1)`, Dim.h line 197. -/
def BoxFloat.setY1 (b : BoxFloat) (y1 : ℚ) : BoxFloat :=
  { b with d_values := Function.update b.d_values 3 y1,
           d_null := BoxFloat.cnullOf (Function.update b.d_values 3 y1) }

/-- `BoxFloat::intersects(other)`, Dim.h lines 199-202. -/
def BoxFloat.intersects (b other : BoxFloat) : Bool :=
  !(decide (other.x > b.x + b.w) || decide (other.y > b.y + b.h) ||
    decide (other.x + other.w < b.x) || decide (other.y + other.h < b.y))

/-- A store `box.pointer()[i] = v` through the pointer `BoxFloat::pointer()` returns
(Dim.h line 204, the address of the first component; `i` is one of the four positions
of the array): component `i` is overwritten, `d_null` and `d_uniform` are not touched. -/
def BoxFloat.pointerWrite (b : BoxFloat) (i : Fin 4) (v : ℚ) : BoxFloat :=
  { b with d_values := Function.update b.d_values i v }

/-- Four stores through `pointer()`, one per component, as a callee that is handed the
pointer to fill the box does (nanovg's `nvgCurrentScissor` in `clipTest`). -/
def BoxFloat.pointerFill (b : BoxFloat) (vs : Fin 4 → ℚ) : BoxFloat :=
  (((b.pointerWrite 0 (vs 0)).pointerWrite 1 (vs 1)).pointerWrite 2 (vs 2)).pointerWrite 3 (vs 3)

/-- The public constructors of `BoxFloat`, Dim.h lines 154-158. -/
inductive BoxCtor where
  | floats (x0 y0 x1 y1 : ℚ)
  | ints (x0 y0 x1 y1 : Int)
  | uniform (val : ℚ)
  | default

/-- The box a constructor call builds. -/
def BoxCtor.build : BoxCtor → BoxFloat
  | BoxCtor.floats x0 y0 x1 y1 => BoxFloat.mk4 x0 y0 x1 y1
  | BoxCtor.ints x0 y0 x1 y1 => BoxFloat.mkInt x0 y0 x1 y1
  | BoxCtor.uniform val => BoxFloat.mkUniform val
  | BoxCtor.default => BoxFloat.default

/-- The public operations on an existing `BoxFloat` that can change it or are named by
the claims: copy-assignment from another box, the two `assign`, the four setters,
`clear`, copy-construction (the run continues on the copy), the const subscript, the
non-const subscript used for a read, the non-const subscript used for a store, and a
store through `pointer()`. The remaining public members of Dim.h (the getters,
`uniform`, `null`, `cnull`, `intersects`, `cls`) are const or static and change nothing. -/
inductive BoxOp where
  | copyAssign (other : BoxFloat)
  | assign (x0 y0 x1 y1 : ℚ)
  | assignUniform (val : ℚ)
  | setX0 (x0 : ℚ)
  | setY0 (y0 : ℚ)
  | setX1 (x1 : ℚ)
  | setY1 (y1 : ℚ)
  | clear
  | copy
  | subscriptConst (i : Fin 4)
  | subscript (i : Fin 4)
  | subscriptWrite (i : Fin 4) (v : ℚ)
  | pointerWrite (i : Fin 4) (v : ℚ)

/-- Runs one operation on the box. -/
def BoxFloat.apply (b : BoxFloat) : BoxOp → BoxFloat
  | BoxOp.copyAssign other => b.copyAssign other
  | BoxOp.assign x0 y0 x1 y1 => b.assign x0 y0 x1 y1
  | BoxOp.assignUniform val => b.assignUniform val
  | BoxOp.setX0 x0 => b.setX0 x0
  | BoxOp.setY0 y0 => b.setY0 y0
  | BoxOp.setX1 x1 => b.setX1 x1
  | BoxOp.setY1 y1 => b.setY1 y1
  | BoxOp.clear => b.clear
  | BoxOp.copy => BoxFloat.copy b
  | BoxOp.subscriptConst _ => b
  | BoxOp.subscript i => (b.subscript i).2
  | BoxOp.subscriptWrite i v => b.subscriptWrite i v
  | BoxOp.pointerWrite i v => b.pointerWrite i v

/-- Runs a sequence of operations, first to last. -/
def BoxFloat.run (b : BoxFloat) (ops : List BoxOp) : BoxFloat :=
  ops.foldl BoxFloat.apply b

/-- Whether the operation goes through a reference or pointer into the components: the
non-const `operator[]` (read or store) or a store through `pointer()`. -/
def BoxOp.viaReference : BoxOp → Bool
  | BoxOp.subscript _ => true
  | BoxOp.subscriptWrite _ _ => true
  | BoxOp.pointerWrite _ _ => true
  | _ => false

/-- All four components of the box are zero. -/
def BoxFloat.allZero (b : BoxFloat) : Prop :=
  b.d_values 0 = 0 ∧ b.d_values 1 = 0 ∧ b.d_values 2 = 0 ∧ b.d_values 3 = 0

/-! ## NanoRenderer::clipTest (Nano/NanoRenderer.cpp) -/

/-- The local `scissor` of `clipTest` after NanoRenderer.cpp lines 123-124: a
default-constructed box whose four components `nvgCurrentScissor` has overwritten
through `pointer()` with `current` (x, y, width, height). -/
def NanoRenderer.currentScissor (current : Fin 4 → ℚ) : BoxFloat :=
  BoxFloat.default.pointerFill current

/-- `NanoRenderer::clipTest(rect)`, NanoRenderer.cpp lines 121-130. `current` holds the
four floats `nvgCurrentScissor` stores through `scissor.pointer()` into the
default-constructed `scissor`. -/
def NanoRenderer.clipTest (current : Fin 4 → ℚ) (rect : BoxFloat) : Bool :=
  let scissor : BoxFloat := NanoRenderer.currentScissor current
  if scissor.x1 < 0 ∨ scissor.y1 < 0 then false
  else !rect.intersects scissor

/-! ## DropdownInput (Button/Dropdown.cpp) -/

/-- Calls a `DropdownInput` issues outside the list: `updateHead(choice.content())`,
which resets the header to a clone of the content of the choice, and the callback
`m_onSelected(choice.content())`. A content is named by the handle of its choice. -/
inductive DropdownInputCall where
  | updateHead (choice : Nat)
  | onSelected (choice : Nat)
  deriving DecidableEq, Repr

/-- The state of a `DropdownInput`: its `Dropdown` base object, the `DropdownChoice`
widgets of the list by handle (a `DropdownChoice&` or the pointer `m_selected` is a
handle), `m_selected` (none for `nullptr`), whether `m_onSelected` holds a callback,
and the log of the calls issued outside the list. -/
structure DropdownInput where
  base : Dropdown
  choices : Nat → Widget
  m_selected : Option Nat
  hasOnSelected : Bool
  calls : List DropdownInputCall

/-- `DropdownInput::updateHead(choice)`, Dropdown.cpp lines 133-136: the header is reset
to a clone of the content; logged. -/
def DropdownInput.updateHead (d : DropdownInput) (choice : Nat) : DropdownInput :=
  { d with calls := d.calls ++ [DropdownInputCall.updateHead choice] }

/-- `DropdownInput::select(choice)`, Dropdown.cpp lines 111-120. `ACTIVATED` is the value
of the enumerator of that name (Widget.h is not among the sources). The choice
argument and `m_selected` may name the same widget: the second update reads the
table the first one left. -/
def DropdownInput.select (ACTIVATED : Nat) (d : DropdownInput) (choice : Nat) : DropdownInput :=
  let d1 := match d.m_selected with
    | some old => { d with choices := Function.update d.choices old
                                        ((d.choices old).disableState ACTIVATED) }
    | none => d
  let d2 := { d1 with m_selected := some choice }
  let d3 := { d2 with choices := Function.update d2.choices choice
                                   ((d2.choices choice).enableState ACTIVATED) }
  d3.updateHead choice

/-- `DropdownInput::handleAdd(widget)`, Dropdown.cpp lines 105-109; `choice` is the
handle of `widget.parent()`, the choice that wraps the added widget. -/
def DropdownInput.handleAdd (ACTIVATED : Nat) (d : DropdownInput) (choice : Nat) : DropdownInput :=
  if d.m_selected = none then d.select ACTIVATED choice else d

/-- `DropdownInput::selected(choice)`, Dropdown.cpp lines 122-131. The callback
`m_onSelected` is application code: its call is logged. -/
def DropdownInput.selected (ACTIVATED : Nat) (d : DropdownInput) (choice : Nat) : DropdownInput :=
  let d1 := if d.base.m_down then { d with base := d.base.dropup } else d
  let d2 := d1.select ACTIVATED choice
  if d2.hasOnSelected then
    { d2 with calls := d2.calls ++ [DropdownInputCall.onSelected choice] }
  else d2

/-- Runs a sequence of `select` calls, first to last. -/
def DropdownInput.selectAll (ACTIVATED : Nat) (d : DropdownInput) (cs : List Nat) : DropdownInput :=
  cs.foldl (DropdownInput.select ACTIVATED) d

/-! ## Input events: Widget::receiveEvent and Widget::controlEvent (Widget/Widget.cpp) -/

/-- The fields of `InputEvent` and of its subclass `MouseEvent` that Widget.cpp reads or
writes (the event classes are declared in headers that are not among the sources):
`deviceType`, `consumed`, `visited` (handles of the receivers visited), and for a mouse
event `posX`, `posY`, `relativeX`, `relativeY`. -/
structure InputEvent where
  deviceType : Nat
  consumed : Bool
  visited : List Nat
  posX : ℚ
  posY : ℚ
  relativeX : ℚ
  relativeY : ℚ

/-- The enumerators Widget.cpp compares with, `InputEvent::DEVICE_MOUSE` and
`CM_ABSOLUTE`; their values are declared in headers that are not among the sources
and are parameters of the model. -/
structure InputConstants where
  DEVICE_MOUSE : Nat
  CM_ABSOLUTE : Nat

/-- A controller as `Widget::controlEvent` uses it: `consumes(deviceType)` and
`controlEvent(inputEvent)`, which returns a receiver (none for `nullptr`). -/
structure Controller where
  consumes : Nat → Bool
  controlEvent : InputEvent → Option Nat

/-- A widget seen as an input receiver: its own handle (`this`), the widget, and the
members `m_controller` (none for `nullptr`) and `m_controlMode` (the value of the
enumerator) that `Widget::controlEvent` reads. -/
structure InputWidget where
  self : Nat
  widget : Widget
  m_controller : Option Controller
  m_controlMode : Nat

/-- `Widget::receiveEvent(inputEvent)`, Widget.cpp lines 337-356. `localPosition` is
`m_frame->localPosition(x, y)` and `inputWidgetReceiveEvent` is the base-class method
`InputWidget::receiveEvent` (neither is among the sources). Returns the receiver and
the event as the call leaves it. -/
def Widget.receiveEvent (K : InputConstants) (localPosition : ℚ → ℚ → ℚ × ℚ)
    (inputWidgetReceiveEvent : Nat → InputEvent → Nat × InputEvent)
    (self : Nat) (inputEvent : InputEvent) : Nat × InputEvent :=
  if inputEvent.consumed then (self, inputEvent)
  else
    let e1 := { inputEvent with visited := inputEvent.visited ++ [self] }
    let e2 :=
      if e1.deviceType ≥ K.DEVICE_MOUSE then
        let loc := localPosition e1.posX e1.posY
        { e1 with relativeX := loc.1, relativeY := loc.2 }
      else e1
    inputWidgetReceiveEvent self e2

/-- The second part of `Widget::controlEvent`, Widget.cpp lines 263-270, reached when
no controller consumes the event. -/
def InputWidget.controlEventDirect (K : InputConstants) (iw : InputWidget)
    (inputEvent : InputEvent) : Option Nat × Widget :=
  if inputEvent.deviceType ≥ K.DEVICE_MOUSE ∧ iw.m_controlMode < K.CM_ABSOLUTE then
    let pinned := iw.widget.pinpoint inputEvent.posX inputEvent.posY
    (match pinned.1 with
      | some p => some p
      | none => some iw.self, pinned.2)
  else (some iw.self, iw.widget)

/-- `Widget::controlEvent(inputEvent)`, Widget.cpp lines 258-271: the receiver returned
(none for `nullptr`) and the widget, whose frame has logged the calls of `pinpoint`. -/
def InputWidget.controlEvent (K : InputConstants) (iw : InputWidget) (inputEvent : InputEvent) :
    Option Nat × Widget :=
  match iw.m_controller with
  | some c =>
    if c.consumes inputEvent.deviceType then (c.controlEvent inputEvent, iw.widget)
    else iw.controlEventDirect K inputEvent
  | none => iw.controlEventDirect K inputEvent

/-! ## Text rows: breakTextReturns and breakText (Nano/NanoRenderer.cpp) -/

/-- The code of the character `'\n'`; a `char` is its code. -/
def NEWLINE : Nat := 10

/-- What the scan of `breakTextReturns` does with the pointer `iter`, in order: `deref p`
is the read `*iter` with `iter` at position `p`, `bound p` the evaluation of
`iter < end` with `iter` at position `p`. Positions are offsets from the start of
the buffer. -/
inductive ScanEvent where
  | deref (pos : Nat)
  | bound (pos : Nat)
  deriving DecidableEq, Repr

/-- The loop `do ++iter; while(*iter != '\n' && iter < end);` of `breakTextReturns`,
NanoRenderer.cpp lines 324-326, entered with `iter` at the given position; `mem` gives
the character at each position and `fuel` bounds the number of iterations (none when
it runs out). Returns the final `iter` and the events in order; `&&` evaluates
`iter < end` only when the character read is not a newline. -/
def scanReturns (mem : Nat → Nat) (end_ : Nat) : Nat → Nat → Option (Nat × List ScanEvent)
  | 0, _ => none
  | fuel + 1, iter =>
    if mem (iter + 1) ≠ NEWLINE then
      if iter + 1 < end_ then
        match scanReturns mem end_ fuel (iter + 1) with
        | some r => some (r.1, ScanEvent.deref (iter + 1) :: ScanEvent.bound (iter + 1) :: r.2)
        | none => none
      else some (iter + 1, [ScanEvent.deref (iter + 1), ScanEvent.bound (iter + 1)])
    else some (iter + 1, [ScanEvent.deref (iter + 1)])

/-- The members of `TextRow` that `breakText` and its helpers set from the pointers:
`start`, `end` (as offsets from `text.c_str()`), `startIndex`, `endIndex`. The
rectangle and the glyphs, which are measured by nanovg, are left out. -/
structure TextRow where
  start : Nat
  end_ : Nat
  startIndex : Nat
  endIndex : Nat
  deriving DecidableEq, Repr

/-- `NanoRenderer::breakTextReturns(first, end, rect, skin, row)`, NanoRenderer.cpp lines
320-333, on the row passed in: `row.start = first`, `row.end = iter`. The scan gets
`end - first + 1` units of fuel. Returns the row and the events of the scan. -/
def NanoRenderer.breakTextReturns (mem : Nat → Nat) (first end_ : Nat) (row : TextRow) :
    Option (TextRow × List ScanEvent) :=
  match scanReturns mem end_ (end_ - first + 1) first with
  | some r => some ({ row with start := first, end_ := r.1 }, r.2)
  | none => none

/-- The flags of the `InkStyle` that `breakText` reads: `textBreak()` and `textWrap()`. -/
structure TextFlags where
  textBreak : Bool
  textWrap : Bool
  deriving DecidableEq, Repr

/-- The loop `while(first < end)` of `NanoRenderer::breakText`, NanoRenderer.cpp lines
353-368. `breakWidth first end` gives the `start` and `end` that `breakTextWidth` takes
from nanovg's `nvgTextBreakLines`; `fuel` bounds the number of iterations (none when
it runs out). -/
def breakTextLoop (skin : TextFlags) (breakWidth : Nat → Nat → Nat × Nat) (mem : Nat → Nat)
    (end_ : Nat) : Nat → Nat → List TextRow → Option (List TextRow)
  | 0, first, textRows => if first < end_ then none else some textRows
  | fuel + 1, first, textRows =>
    if first < end_ then
      let fresh : TextRow := { start := 0, end_ := 0, startIndex := 0, endIndex := 0 }
      let broken : Option TextRow :=
        if skin.textWrap then
          some { fresh with start := (breakWidth first end_).1, end_ := (breakWidth first end_).2 }
        else
          match NanoRenderer.breakTextReturns mem first end_ fresh with
          | some r => some r.1
          | none => none
      match broken with
      | some row =>
        let row1 := { row with startIndex := row.start, endIndex := row.end_ }
        breakTextLoop skin breakWidth mem end_ fuel (row1.end_ + 1) (textRows ++ [row1])
      | none => none
    else some textRows

/-- The characters `text.c_str()` points to: those of the text, then the terminating
zero. -/
def cstr (text : List Nat) (i : Nat) : Nat := text.getD i 0

/-- `NanoRenderer::breakText(text, space, skin, textRows)`, NanoRenderer.cpp lines 335-369:
the rows left in `textRows`. Without text breaking the single row is filled by
`fillText` (lines 293-302), which sets `start` and `end` only. `fuel` bounds the
iterations of the loop. -/
def NanoRenderer.breakText (skin : TextFlags) (breakWidth : Nat → Nat → Nat × Nat) (fuel : Nat)
    (text : List Nat) : Option (List TextRow) :=
  if ¬ skin.textBreak then
    some [{ start := 0, end_ := text.length, startIndex := 0, endIndex := 0 }]
  else breakTextLoop skin breakWidth (cstr text) text.length fuel 0 []

/-- The characters of a row: `text[startIndex .. endIndex)`. -/
def TextRow.chars (text : List Nat) (row : TextRow) : List Nat :=
  (text.drop row.startIndex).take (row.endIndex - row.startIndex)

/-- The skin flags of the claims on rows: text breaking on, wrapping off. -/
def breakOnReturns : TextFlags := { textBreak := true, textWrap := false }

/-- A width breaker for runs in which wrapping is off and nanovg is never asked. -/
def noBreakWidth : Nat → Nat → Nat × Nat := fun first end_ => (first, end_)

/-! ## Sample objects for input and dropdown input -/

/-- A sample open `DropdownInput`: freshly constructed, then opened; nothing selected,
every choice in state 0, a callback installed. -/
def sampleDropdownInput : DropdownInput :=
  { base := Dropdown.new.dropdown true, choices := fun _ => sampleWidget 0 0 7,
    m_selected := none, hasOnSelected := true, calls := [] }

/-- A sample assignment of the input enumerators: DEVICE_MOUSE is 2, CM_ABSOLUTE is 3. -/
def sampleConstants : InputConstants := { DEVICE_MOUSE := 2, CM_ABSOLUTE := 3 }

/-- A sample event with the given device type and consumed flag, at window position
(15, 25), which has already visited receiver 1. -/
def sampleEvent (deviceType : Nat) (consumed : Bool) : InputEvent :=
  { deviceType := deviceType, consumed := consumed, visited := [1],
    posX := 15, posY := 25, relativeX := 0, relativeY := 0 }

/-- A sample `localPosition`: the frame sits at (10, 20) with scale 1. -/
def sampleLocalPosition : ℚ → ℚ → ℚ × ℚ := fun x y => (x - 10, y - 20)

/-- A sample `InputWidget::receiveEvent`: returns the receiver, event untouched. -/
def sampleBaseReceive : Nat → InputEvent → Nat × InputEvent := fun self e => (self, e)

/-- A sample input widget with handle 5, no controller, the given dirty level of its
frame and the given control mode. -/
def sampleInputWidget (dirty : Dirty) (mode : Nat) : InputWidget :=
  { self := 5, widget := sampleWidget 0 dirty 7, m_controller := none, m_controlMode := mode }

/-! ## Predicates on rows and rectangles -/

/-- A list of rows that starts at index `start`, in which every row is non-empty and
ends within the text of the given size, and every following row starts one past the
end of the row before it (the index in between is skipped). -/
def RowsChained (size : Nat) : Nat → List TextRow → Prop
  | _, [] => True
  | start, row :: rows =>
      row.startIndex = start ∧ row.startIndex < row.endIndex ∧ row.endIndex ≤ size ∧
      RowsChained size (row.endIndex + 1) rows

/-- The point (px, py) lies in the closed rectangle [x, x+w] x [y, y+h] of the box read
as (x, y, w, h). -/
def BoxFloat.inClosedRect (b : BoxFloat) (px py : ℚ) : Prop :=
  b.x ≤ px ∧ px ≤ b.x + b.w ∧ b.y ≤ py ∧ py ≤ b.y + b.h

/-! ## Theorems -/

/-! ### C1: pinpoint on a MAPPING-dirty frame -/

/-- C1: for every widget whose frame's dirty level is at least DIRTY_MAPPING and every
point (x, y), `Widget::pinpoint(x, y)` returns null, and the widget is returned as it
was: its frame has received no call, neither `absolutePosition` nor the hit test
`pinpoint`; so the result does not depend on the hit test. -/
theorem pinpoint_dirty_mapping_null (w : Widget) (x y : ℚ)
    (h : DIRTY_MAPPING ≤ w.m_frame.dirty) :
    (w.pinpoint x y).1 = none ∧ (w.pinpoint x y).2 = w ∧
      (w.pinpoint x y).2.m_frame.calls = w.m_frame.calls := by
  have hp : w.pinpoint x y = (none, w) := by
    unfold Widget.pinpoint
    rw [if_pos h]
  rw [hp]
  exact ⟨rfl, rfl, rfl⟩

/-- Witness of C1 on the sample widget with a MAPPING-dirty frame, whose hit test would
find widget 42. -/
theorem pinpoint_dirty_mapping_null_witness :
    DIRTY_MAPPING ≤ (sampleWidget 0 2 7).m_frame.dirty ∧
      ((sampleWidget 0 2 7).pinpoint 15 25).1 = none ∧
      ((sampleWidget 0 2 7).pinpoint 15 25).2 = sampleWidget 0 2 7 ∧
      ((sampleWidget 0 2 7).pinpoint 15 25).2.m_frame.calls = (sampleWidget 0 2 7).m_frame.calls :=
  ⟨by decide, pinpoint_dirty_mapping_null (sampleWidget 0 2 7) 15 25 (by decide)⟩

/-- Below DIRTY_MAPPING the guard does not fire: `Widget::pinpoint` asks the frame for
its absolute position, hit-tests at the point relative to it, and returns the hit. -/
theorem pinpoint_clean_hits (w : Widget) (x y : ℚ) (h : w.m_frame.dirty < DIRTY_MAPPING) :
    (w.pinpoint x y).1 = w.m_frame.hit (x - w.m_frame.absolute.1) (y - w.m_frame.absolute.2) true ∧
      (w.pinpoint x y).2.m_frame.calls = w.m_frame.calls ++
        [FrameCall.absolutePosition,
         FrameCall.pinpoint (x - w.m_frame.absolute.1) (y - w.m_frame.absolute.2) true] := by
  unfold Widget.pinpoint
  rw [if_neg (Nat.not_le.mpr h)]
  simp [Frame.absolutePosition, Frame.pinpoint]

/-! ### C2, C3: Widget::nextFrame -/

/-- The frame after `Widget::nextFrame`, field by field. -/
theorem nextFrame_frame (w : Widget) (tick step : Nat) :
    (w.nextFrame tick step).m_frame.dirty = DIRTY_NONE ∧
    (w.nextFrame tick step).m_frame.layerRedraw
      = (if w.m_frame.dirty ≠ 0 then true else w.m_frame.layerRedraw) ∧
    (w.nextFrame tick step).m_frame.calls = w.m_frame.calls ++
      ((if w.m_frame.dirty ≠ 0 then [FrameCall.setRedraw] else []) ++ [FrameCall.clearDirty] ++
        (if w.m_style.updated > w.m_frame.styleStamp then [FrameCall.resetStyle] else [])) ∧
    (w.nextFrame tick step).m_frame.styleStamp
      = (if w.m_style.updated > w.m_frame.styleStamp then w.m_style.updated
         else w.m_frame.styleStamp) ∧
    (w.nextFrame tick step).m_frame.inkstyle
      = (if w.m_style.updated > w.m_frame.styleStamp then w.m_style.subskin w.m_state
         else w.m_frame.inkstyle) := by
  unfold Widget.nextFrame
  simp only [Frame.layerSetRedraw, Frame.clearDirty, Frame.resetStyle, Frame.styleStamp,
    Frame.dirty]
  split_ifs <;> simp

/-- C2: `Widget::nextFrame` consumes the dirty state once per tick. If the frame's dirty
level is not NONE when it runs, the owning layer's redraw flag is set on return; this
is the case after `Widget::markDirty`; and in every case the frame's dirty level is
NONE on return, `clearDirty` having been called exactly once. -/
theorem nextFrame_consumes_dirty (w : Widget) (tick step : Nat) :
    (w.m_frame.dirty ≠ DIRTY_NONE → (w.nextFrame tick step).m_frame.layerRedraw = true) ∧
    (w.markDirty.nextFrame tick step).m_frame.layerRedraw = true ∧
    (w.nextFrame tick step).m_frame.dirty = DIRTY_NONE ∧
    (w.nextFrame tick step).m_frame.calls.count FrameCall.clearDirty
      = w.m_frame.calls.count FrameCall.clearDirty + 1 := by
  obtain ⟨h1, h2, h3, -, -⟩ := nextFrame_frame w tick step
  refine ⟨?_, ?_, h1, ?_⟩
  · intro hd
    have hd0 : w.m_frame.dirty ≠ 0 := hd
    rw [h2, if_pos hd0]
  · have hm : w.markDirty.m_frame.dirty ≠ 0 := by
      simp [Widget.markDirty, Frame.setDirty, Frame.dirty, DIRTY_CONTENT]
    rw [(nextFrame_frame w.markDirty tick step).2.1, if_pos hm]
  · rw [h3]
    by_cases hd : w.m_frame.dirty ≠ 0 <;> by_cases hs : w.m_style.updated > w.m_frame.styleStamp <;>
      simp [hd, hs, List.count_append, List.count_cons]

/-- Witness of C2 on a CONTENT-dirty sample widget whose layer flag is clear. -/
theorem nextFrame_consumes_dirty_witness :
    (sampleWidget 0 1 7).m_frame.dirty ≠ DIRTY_NONE ∧
      (sampleWidget 0 1 7).m_frame.layerRedraw = false ∧
      ((sampleWidget 0 1 7).nextFrame 0 0).m_frame.layerRedraw = true :=
  ⟨by decide, rfl, (nextFrame_consumes_dirty (sampleWidget 0 1 7) 0 0).1 (by decide)⟩

/-- C3: `Widget::nextFrame` calls `frame.resetStyle()` if and only if the style's
`updated()` stamp is strictly greater than the frame's `styleStamp()`: the calls of the
tick are `setRedraw` (only if dirty), `clearDirty`, and then `resetStyle` exactly in that
case; with equal stamps or a smaller style stamp, no `resetStyle` is issued and the
cached stamp and content inkstyle are left as they were. -/
theorem nextFrame_resetStyle_iff (w : Widget) (tick step : Nat) :
    (FrameCall.resetStyle ∈ ((w.nextFrame tick step).m_frame.calls.drop w.m_frame.calls.length)
        ↔ w.m_style.updated > w.m_frame.styleStamp) ∧
    ((w.nextFrame tick step).m_frame.calls.count FrameCall.resetStyle
        = w.m_frame.calls.count FrameCall.resetStyle
          + (if w.m_style.updated > w.m_frame.styleStamp then 1 else 0)) ∧
    (w.m_style.updated ≤ w.m_frame.styleStamp →
        (w.nextFrame tick step).m_frame.styleStamp = w.m_frame.styleStamp ∧
        (w.nextFrame tick step).m_frame.inkstyle = w.m_frame.inkstyle) := by
  obtain ⟨-, -, h3, h4, h5⟩ := nextFrame_frame w tick step
  refine ⟨?_, ?_, ?_⟩
  · rw [h3, List.drop_left]
    by_cases hd : w.m_frame.dirty ≠ 0 <;> by_cases hs : w.m_style.updated > w.m_frame.styleStamp <;>
      simp [hd, hs]
  · rw [h3]
    by_cases hd : w.m_frame.dirty ≠ 0 <;> by_cases hs : w.m_style.updated > w.m_frame.styleStamp <;>
      simp [hd, hs, List.count_append, List.count_cons]
  · intro hle
    have hs : ¬ w.m_style.updated > w.m_frame.styleStamp := Nat.not_lt.mpr hle
    rw [h4, h5, if_neg hs, if_neg hs]
    exact ⟨rfl, rfl⟩

/-- Witness of C3: with equal stamps the sample widget's style is not reset. -/
theorem nextFrame_resetStyle_iff_witness :
    (sampleWidget 0 1 7).m_style.updated ≤ (sampleWidget 0 1 7).m_frame.styleStamp ∧
      ((sampleWidget 0 1 7).nextFrame 0 0).m_frame.styleStamp = (sampleWidget 0 1 7).m_frame.styleStamp ∧
      ((sampleWidget 0 1 7).nextFrame 0 0).m_frame.inkstyle = (sampleWidget 0 1 7).m_frame.inkstyle :=
  ⟨by decide, (nextFrame_resetStyle_iff (sampleWidget 0 1 7) 0 0).2.2 (by decide)⟩

/-! ### Bit-level facts about the state mask -/

/-- A single flag is clear in a mask exactly when its bit is. -/
theorem and_two_pow_eq_zero_iff (m i : Nat) : m &&& 2 ^ i = 0 ↔ m.testBit i = false := by
  constructor
  · intro h
    have h2 := congrArg (fun n => n.testBit i) h
    simpa [Nat.testBit_and, Nat.testBit_two_pow] using h2
  · intro h
    apply Nat.eq_of_testBit_eq
    intro k
    rw [Nat.testBit_and, Nat.testBit_two_pow]
    by_cases hik : i = k
    · subst hik; simp [h]
    · simp [hik]

/-- A single flag is set in a mask exactly when its bit is. -/
theorem flagSet_two_pow (m i : Nat) : flagSet m (2 ^ i) ↔ m.testBit i = true := by
  unfold flagSet
  rw [Ne, and_two_pow_eq_zero_iff]
  simp

/-- Toggling a non-empty mask changes the state. -/
theorem toggle_mask_ne_self (m s : Nat) (hs : s ≠ 0) : m ^^^ s ≠ m := by
  intro h
  apply hs
  have h2 : m ^^^ (m ^^^ s) = m ^^^ m := congrArg (fun n => m ^^^ n) h
  rwa [Nat.xor_cancel_left, Nat.xor_self] at h2

/-- The state mask after `enableState`. -/
theorem enableState_state (w : Widget) (s : Nat) :
    (w.enableState s).m_state = if w.m_state &&& s = 0 then w.m_state ^^^ s else w.m_state := by
  unfold Widget.enableState
  split_ifs <;> simp [Widget.toggleState, Widget.updateState]

/-- The state mask after `disableState`. -/
theorem disableState_state (w : Widget) (s : Nat) :
    (w.disableState s).m_state = if w.m_state &&& s ≠ 0 then w.m_state ^^^ s else w.m_state := by
  unfold Widget.disableState
  split_ifs <;> simp [Widget.toggleState, Widget.updateState]

/-- Bits of the mask after enabling the single flag `2 ^ i`. -/
theorem enableState_testBit (w : Widget) (i k : Nat) :
    (w.enableState (2 ^ i)).m_state.testBit k = (w.m_state.testBit k || decide (i = k)) := by
  rw [enableState_state]
  split_ifs with h
  · rw [Nat.testBit_xor, Nat.testBit_two_pow]
    by_cases hik : i = k
    · subst hik
      rw [(and_two_pow_eq_zero_iff _ _).mp h]; simp
    · simp [hik]
  · by_cases hik : i = k
    · subst hik
      have hb : w.m_state.testBit i = true := by
        rw [and_two_pow_eq_zero_iff] at h
        simpa using h
      simp [hb]
    · simp [hik]

/-- Bits of the mask after disabling the single flag `2 ^ i`. -/
theorem disableState_testBit (w : Widget) (i k : Nat) :
    (w.disableState (2 ^ i)).m_state.testBit k = (w.m_state.testBit k && !decide (i = k)) := by
  rw [disableState_state]
  split_ifs with h
  · rw [Nat.testBit_xor, Nat.testBit_two_pow]
    by_cases hik : i = k
    · subst hik
      have hb : w.m_state.testBit i = true := by
        rw [Ne, and_two_pow_eq_zero_iff] at h
        simpa using h
      simp [hb]
    · simp [hik]
  · by_cases hik : i = k
    · subst hik
      have hb : w.m_state.testBit i = false := by
        rw [Ne, not_not, and_two_pow_eq_zero_iff] at h
        exact h
      simp [hb]
    · simp [hik]

/-- What `toggleState` does to the frame: the content inkstyle becomes the sub-skin of
the new mask and the frame is marked CONTENT-dirty, in that order. -/
theorem toggleState_frame (w : Widget) (s : Nat) :
    (w.toggleState s).m_state = w.m_state ^^^ s ∧
    (w.toggleState s).m_style = w.m_style ∧
    (w.toggleState s).m_frame.inkstyle = w.m_style.subskin (w.m_state ^^^ s) ∧
    (w.toggleState s).m_frame.calls = w.m_frame.calls ++
      [FrameCall.updateInkstyle (w.m_style.subskin (w.m_state ^^^ s)),
       FrameCall.setDirty DIRTY_CONTENT] ∧
    (w.toggleState s).m_frame.dirty = max w.m_frame.dirty DIRTY_CONTENT := by
  simp [Widget.toggleState, Widget.updateState, Frame.updateInkstyle, Frame.setDirty, Frame.dirty]

/-! ### C4: a state change selects a sub-skin and marks the frame CONTENT-dirty -/

/-- C4: for every widget and every single state flag `s = 2 ^ i`, `enableState(s)` changes
the state mask exactly when the flag was clear and `disableState(s)` exactly when it was
set. A call that changes the mask issues `content().updateInkstyle(subskin(new mask))`
and then `setDirty(DIRTY_CONTENT)` on the frame, and nothing else: the content inkstyle is
the sub-skin of the new mask and the dirty level is raised to DIRTY_CONTENT. A call
that leaves the mask unchanged leaves the whole widget, frame included, unchanged. -/
theorem state_change_subskin_dirty (w : Widget) (s i : Nat) (hs : s = 2 ^ i) :
    (((w.enableState s).m_state ≠ w.m_state ↔ ¬ flagSet w.m_state s) ∧
      ((w.enableState s).m_state ≠ w.m_state →
        (w.enableState s).m_frame.inkstyle = w.m_style.subskin (w.enableState s).m_state ∧
        (w.enableState s).m_frame.calls = w.m_frame.calls ++
          [FrameCall.updateInkstyle (w.m_style.subskin (w.enableState s).m_state),
           FrameCall.setDirty DIRTY_CONTENT] ∧
        (w.enableState s).m_frame.dirty = max w.m_frame.dirty DIRTY_CONTENT) ∧
      ((w.enableState s).m_state = w.m_state → w.enableState s = w)) ∧
    (((w.disableState s).m_state ≠ w.m_state ↔ flagSet w.m_state s) ∧
      ((w.disableState s).m_state ≠ w.m_state →
        (w.disableState s).m_frame.inkstyle = w.m_style.subskin (w.disableState s).m_state ∧
        (w.disableState s).m_frame.calls = w.m_frame.calls ++
          [FrameCall.updateInkstyle (w.m_style.subskin (w.disableState s).m_state),
           FrameCall.setDirty DIRTY_CONTENT] ∧
        (w.disableState s).m_frame.dirty = max w.m_frame.dirty DIRTY_CONTENT) ∧
      ((w.disableState s).m_state = w.m_state → w.disableState s = w)) := by
  have hs0 : s ≠ 0 := by
    rw [hs]; exact Nat.ne_of_gt (Nat.two_pow_pos i)
  obtain ⟨t1, -, t3, t4, t5⟩ := toggleState_frame w s
  constructor
  · by_cases hc : w.m_state &&& s = 0
    · have he : w.enableState s = w.toggleState s := by
        unfold Widget.enableState; rw [if_pos hc]
      rw [he, t1]
      refine ⟨?_, fun _ => ⟨t3, t4, t5⟩, fun h => absurd h (toggle_mask_ne_self _ _ hs0)⟩
      simp [flagSet, hc, toggle_mask_ne_self _ _ hs0]
    · have he : w.enableState s = w := by
        unfold Widget.enableState; rw [if_neg hc]
      rw [he]
      refine ⟨?_, fun h => absurd rfl h, fun _ => rfl⟩
      simp [flagSet, hc]
  · by_cases hc : w.m_state &&& s ≠ 0
    · have he : w.disableState s = w.toggleState s := by
        unfold Widget.disableState; rw [if_pos hc]
      rw [he, t1]
      refine ⟨?_, fun _ => ⟨t3, t4, t5⟩, fun h => absurd h (toggle_mask_ne_self _ _ hs0)⟩
      simp [flagSet, hc, toggle_mask_ne_self _ _ hs0]
    · have he : w.disableState s = w := by
        unfold Widget.disableState; rw [if_neg hc]
      rw [he]
      refine ⟨?_, fun h => absurd rfl h, fun _ => rfl⟩
      simp [flagSet, hc]

/-- Witness of C4: enabling HOVERED (bit 3) on the clean sample widget in state 0. -/
theorem state_change_subskin_dirty_witness :
    (8 : Nat) = 2 ^ 3 ∧
      ((sampleWidget 0 0 7).enableState 8).m_state = 8 ∧
      ((sampleWidget 0 0 7).enableState 8).m_frame.inkstyle = 108 ∧
      ((sampleWidget 0 0 7).enableState 8).m_frame.calls
        = [FrameCall.updateInkstyle 108, FrameCall.setDirty DIRTY_CONTENT] ∧
      ((sampleWidget 0 0 7).enableState 8).m_frame.dirty = DIRTY_CONTENT :=
  ⟨by decide, by decide,
    ((state_change_subskin_dirty (sampleWidget 0 0 7) 8 3 (by decide)).1.2.1 (by decide)).1,
    ((state_change_subskin_dirty (sampleWidget 0 0 7) 8 3 (by decide)).1.2.1 (by decide)).2.1,
    ((state_change_subskin_dirty (sampleWidget 0 0 7) 8 3 (by decide)).1.2.1 (by decide)).2.2⟩

/-! ### C5: the pointer cycle entered, pressed, released, leaved -/

/-- C5: HOVERED and PRESSED being two distinct single flags, for every widget state in
which both are clear, `mouseEntered`, `mousePressed`, `mouseReleased`, `mouseLeaved`
yield in turn: HOVERED set and PRESSED clear; both set; HOVERED set and PRESSED clear;
both clear. Every other bit of the mask is unchanged at every step, and the final
state equals the initial one. -/
theorem mouse_cycle (E : WidgetStates) (i j : Nat) (hH : E.HOVERED = 2 ^ i)
    (hP : E.PRESSED = 2 ^ j) (hij : i ≠ j) (w : Widget)
    (h0 : ¬ flagSet w.m_state E.HOVERED) (h1 : ¬ flagSet w.m_state E.PRESSED) :
    (flagSet (w.mouseEntered E).m_state E.HOVERED ∧
      ¬ flagSet (w.mouseEntered E).m_state E.PRESSED) ∧
    (flagSet ((w.mouseEntered E).mousePressed E).m_state E.HOVERED ∧
      flagSet ((w.mouseEntered E).mousePressed E).m_state E.PRESSED) ∧
    (flagSet (((w.mouseEntered E).mousePressed E).mouseReleased E).m_state E.HOVERED ∧
      ¬ flagSet (((w.mouseEntered E).mousePressed E).mouseReleased E).m_state E.PRESSED) ∧
    (¬ flagSet ((((w.mouseEntered E).mousePressed E).mouseReleased E).mouseLeaved E).m_state E.HOVERED ∧
      ¬ flagSet ((((w.mouseEntered E).mousePressed E).mouseReleased E).mouseLeaved E).m_state E.PRESSED) ∧
    (∀ k, k ≠ i → k ≠ j →
      (w.mouseEntered E).m_state.testBit k = w.m_state.testBit k ∧
      ((w.mouseEntered E).mousePressed E).m_state.testBit k = w.m_state.testBit k ∧
      (((w.mouseEntered E).mousePressed E).mouseReleased E).m_state.testBit k = w.m_state.testBit k ∧
      ((((w.mouseEntered E).mousePressed E).mouseReleased E).mouseLeaved E).m_state.testBit k
        = w.m_state.testBit k) ∧
    ((((w.mouseEntered E).mousePressed E).mouseReleased E).mouseLeaved E).m_state = w.m_state := by
  have hmi : w.m_state.testBit i = false := by
    rw [hH, flagSet_two_pow] at h0
    simpa using h0
  have hmj : w.m_state.testBit j = false := by
    rw [hP, flagSet_two_pow] at h1
    simpa using h1
  have hji : j ≠ i := Ne.symm hij
  simp only [Widget.mouseEntered, Widget.mousePressed, Widget.mouseReleased, Widget.mouseLeaved,
    hH, hP, flagSet_two_pow, enableState_testBit, disableState_testBit]
  refine ⟨?_, ?_, ?_, ?_, ?_, ?_⟩
  · simp [hmj, hij]
  · simp [hij]
  · simp [hij, hji]
  · simp
  · intro k hki hkj
    simp [Ne.symm hki, Ne.symm hkj]
  · apply Nat.eq_of_testBit_eq
    intro k
    simp only [enableState_testBit, disableState_testBit]
    by_cases hik : i = k
    · subst hik; simp [hmi]
    · by_cases hjk : j = k
      · subst hjk; simp [hmj]
      · simp [hik, hjk]

/-- Witness of C5 on the sample widget in state 0, with HOVERED = 8 and PRESSED = 32:
the four states are 8, 40, 8 and 0. -/
theorem mouse_cycle_witness :
    sampleStates.HOVERED = 2 ^ 3 ∧ sampleStates.PRESSED = 2 ^ 5 ∧
      ¬ flagSet (sampleWidget 0 0 7).m_state sampleStates.HOVERED ∧
      ¬ flagSet (sampleWidget 0 0 7).m_state sampleStates.PRESSED ∧
      (((((sampleWidget 0 0 7).mouseEntered sampleStates).mousePressed sampleStates).mouseReleased
        sampleStates).mouseLeaved sampleStates).m_state = (sampleWidget 0 0 7).m_state :=
  ⟨by decide, by decide, by decide, by decide,
    (mouse_cycle sampleStates 3 5 (by decide) (by decide) (by decide) (sampleWidget 0 0 7)
      (by decide) (by decide)).2.2.2.2.2⟩

/-! ### C6: PRESSED and HOVERED under arbitrary and under disciplined handler sequences -/

/-- C6, counterexample: from NOSTATE, the single call `mousePressed` leaves PRESSED set
and HOVERED clear; so does the sequence `mouseEntered`, `mousePressed`, `mouseLeaved`
(press, then drag out). -/
theorem pressed_without_hovered :
    (flagSet ((sampleWidget sampleStates.NOSTATE 0 7).handleAll sampleStates
        [MouseHandler.mousePressed]).m_state sampleStates.PRESSED ∧
      ¬ flagSet ((sampleWidget sampleStates.NOSTATE 0 7).handleAll sampleStates
        [MouseHandler.mousePressed]).m_state sampleStates.HOVERED) ∧
    (flagSet ((sampleWidget sampleStates.NOSTATE 0 7).handleAll sampleStates
        [MouseHandler.mouseEntered, MouseHandler.mousePressed,
         MouseHandler.mouseLeaved]).m_state sampleStates.PRESSED ∧
      ¬ flagSet ((sampleWidget sampleStates.NOSTATE 0 7).handleAll sampleStates
        [MouseHandler.mouseEntered, MouseHandler.mousePressed,
         MouseHandler.mouseLeaved]).m_state sampleStates.HOVERED) := by
  decide

/-- One disciplined handler call establishes "PRESSED set implies HOVERED set". -/
theorem handle_pressed_implies_hovered (E : WidgetStates) (i j : Nat) (hH : E.HOVERED = 2 ^ i)
    (hP : E.PRESSED = 2 ^ j) (hij : i ≠ j) (w : Widget) (ev : MouseHandler)
    (hp : ev = MouseHandler.mousePressed → flagSet w.m_state E.HOVERED)
    (hl : ev = MouseHandler.mouseLeaved → ¬ flagSet w.m_state E.PRESSED) :
    flagSet (w.handle E ev).m_state E.PRESSED → flagSet (w.handle E ev).m_state E.HOVERED := by
  have hji : j ≠ i := Ne.symm hij
  cases ev with
  | mouseEntered =>
    simp only [Widget.handle, Widget.mouseEntered, hH, hP, flagSet_two_pow, enableState_testBit]
    simp
  | mouseLeaved =>
    have h := hl rfl
    rw [hP, flagSet_two_pow] at h
    simp only [Widget.handle, Widget.mouseLeaved, hH, hP, flagSet_two_pow, disableState_testBit]
    intro h2
    simp [hij] at h2
    exact absurd h2 h
  | mousePressed =>
    have h := hp rfl
    rw [hH, flagSet_two_pow] at h
    simp only [Widget.handle, Widget.mousePressed, hH, hP, flagSet_two_pow, enableState_testBit]
    simp [h]
  | mouseReleased =>
    simp only [Widget.handle, Widget.mouseReleased, hH, hP, flagSet_two_pow, disableState_testBit]
    simp

/-- Disciplined sequences preserve "PRESSED set implies HOVERED set" from any state
that satisfies it. -/
theorem handleAll_pressed_implies_hovered (E : WidgetStates) (i j : Nat) (hH : E.HOVERED = 2 ^ i)
    (hP : E.PRESSED = 2 ^ j) (hij : i ≠ j) (evs : List MouseHandler) :
    ∀ w : Widget, w.Disciplined E evs →
      (flagSet w.m_state E.PRESSED → flagSet w.m_state E.HOVERED) →
      flagSet (w.handleAll E evs).m_state E.PRESSED →
        flagSet (w.handleAll E evs).m_state E.HOVERED := by
  induction evs with
  | nil => intro w _ hinv; exact hinv
  | cons ev evs ih =>
    intro w hd _
    obtain ⟨hp, hl, hrest⟩ := hd
    exact ih (w.handle E ev) hrest (handle_pressed_implies_hovered E i j hH hP hij w ev hp hl)

/-- C6, amended: HOVERED and PRESSED being two distinct single flags and NOSTATE the
empty mask, in every widget state reached from NOSTATE by a sequence of `mouseEntered`,
`mouseLeaved`, `mousePressed`, `mouseReleased` in which `mousePressed` is delivered only
while HOVERED is set and `mouseLeaved` only while PRESSED is clear, PRESSED set implies
HOVERED set. -/
theorem pressed_implies_hovered_disciplined (E : WidgetStates) (i j : Nat)
    (hH : E.HOVERED = 2 ^ i) (hP : E.PRESSED = 2 ^ j) (hij : i ≠ j) (hN : E.NOSTATE = 0)
    (w : Widget) (hw : w.m_state = E.NOSTATE) (evs : List MouseHandler)
    (hd : w.Disciplined E evs) :
    flagSet (w.handleAll E evs).m_state E.PRESSED →
      flagSet (w.handleAll E evs).m_state E.HOVERED := by
  apply handleAll_pressed_implies_hovered E i j hH hP hij evs w hd
  intro h
  rw [hw, hN] at h
  simp [flagSet] at h

/-- Witness of the amended C6: after `mouseEntered`, `mousePressed` from NOSTATE the
sample widget is PRESSED, and HOVERED. -/
theorem pressed_implies_hovered_disciplined_witness :
    flagSet ((sampleWidget 0 0 7).handleAll sampleStates
        [MouseHandler.mouseEntered, MouseHandler.mousePressed]).m_state sampleStates.PRESSED ∧
      flagSet ((sampleWidget 0 0 7).handleAll sampleStates
        [MouseHandler.mouseEntered, MouseHandler.mousePressed]).m_state sampleStates.HOVERED :=
  ⟨by decide,
    pressed_implies_hovered_disciplined sampleStates 3 5 (by decide) (by decide) (by decide)
      (by decide) (sampleWidget 0 0 7) (by decide)
      [MouseHandler.mouseEntered, MouseHandler.mousePressed]
      (by simp only [Widget.Disciplined]; decide) (by decide)⟩

/-! ### C7, C8: modal capture by a dropdown -/

/-- The list and flag after `Dropdown::dropdown`: shown, moved to top, given modal
control, and `m_down` true, whatever the argument. -/
theorem dropdown_effect (d : Dropdown) (modal : Bool) :
    (d.dropdown modal).m_down = true ∧ (d.dropdown modal).m_list.visible = true ∧
    (d.dropdown modal).m_list.calls = d.m_list.calls ++
      [ListCall.show, ListCall.moveToTop, ListCall.takeControl ControlMode.CM_MODAL] ∧
    takeCount (d.dropdown modal).m_list = takeCount d.m_list + 1 ∧
    yieldCount (d.dropdown modal).m_list = yieldCount d.m_list := by
  simp [Dropdown.dropdown, DropdownList.show, DropdownList.moveToTop, DropdownList.takeControl,
    takeCount, yieldCount, List.filter_append]

/-- The list and flag after `Dropdown::dropup`: hidden, control yielded, `m_down` false. -/
theorem dropup_effect (d : Dropdown) :
    d.dropup.m_down = false ∧ d.dropup.m_list.visible = false ∧
    d.dropup.m_list.calls = d.m_list.calls ++ [ListCall.hide, ListCall.yieldControl] ∧
    takeCount d.dropup.m_list = takeCount d.m_list ∧
    yieldCount d.dropup.m_list = yieldCount d.m_list + 1 := by
  simp [Dropdown.dropup, DropdownList.hide, DropdownList.yieldControl,
    takeCount, yieldCount, List.filter_append]

/-- C7: for every closed dropdown (`m_down` false, list hidden) and either value of the
`modal` argument, `dropdown(modal)` followed by `dropup()` leaves the list hidden and
`m_down` false, as before the opening, and the list has received, after its earlier
calls, exactly show, moveToTop, takeControl(CM_MODAL), hide, yieldControl: one
takeControl(CM_MODAL) followed by one yieldControl. -/
theorem dropdown_then_dropup_restores (d : Dropdown) (modal : Bool)
    (hdown : d.m_down = false) (hhidden : d.m_list.visible = false) :
    ((d.dropdown modal).dropup).m_list.visible = false ∧
    ((d.dropdown modal).dropup).m_down = false ∧
    ((d.dropdown modal).dropup).m_list.visible = d.m_list.visible ∧
    ((d.dropdown modal).dropup).m_down = d.m_down ∧
    ((d.dropdown modal).dropup).m_list.calls = d.m_list.calls ++
      [ListCall.show, ListCall.moveToTop, ListCall.takeControl ControlMode.CM_MODAL,
       ListCall.hide, ListCall.yieldControl] ∧
    controlCalls (((d.dropdown modal).dropup).m_list.calls.drop d.m_list.calls.length)
      = [ListCall.takeControl ControlMode.CM_MODAL, ListCall.yieldControl] ∧
    takeCount ((d.dropdown modal).dropup).m_list = takeCount d.m_list + 1 ∧
    yieldCount ((d.dropdown modal).dropup).m_list = yieldCount d.m_list + 1 := by
  obtain ⟨-, -, c1, t1, y1⟩ := dropdown_effect d modal
  obtain ⟨m2, v2, c2, t2, y2⟩ := dropup_effect (d.dropdown modal)
  have hc : ((d.dropdown modal).dropup).m_list.calls = d.m_list.calls ++
      [ListCall.show, ListCall.moveToTop, ListCall.takeControl ControlMode.CM_MODAL,
       ListCall.hide, ListCall.yieldControl] := by
    rw [c2, c1]; simp
  refine ⟨v2, m2, ?_, ?_, hc, ?_, ?_, ?_⟩
  · rw [v2, hhidden]
  · rw [m2, hdown]
  · rw [hc, List.drop_left]
    simp [controlCalls]
  · rw [t2, t1]
  · rw [y2, y1]

/-- Witness of C7 on a freshly constructed dropdown, opened non-modally. -/
theorem dropdown_then_dropup_restores_witness :
    Dropdown.new.m_down = false ∧ Dropdown.new.m_list.visible = false ∧
      ((Dropdown.new.dropdown false).dropup).m_list.visible = false ∧
      ((Dropdown.new.dropdown false).dropup).m_down = false ∧
      ((Dropdown.new.dropdown false).dropup).m_list.calls =
        [ListCall.hide, ListCall.show, ListCall.moveToTop,
         ListCall.takeControl ControlMode.CM_MODAL, ListCall.hide, ListCall.yieldControl] :=
  ⟨rfl, rfl,
    (dropdown_then_dropup_restores Dropdown.new false rfl rfl).1,
    (dropdown_then_dropup_restores Dropdown.new false rfl rfl).2.1,
    (dropdown_then_dropup_restores Dropdown.new false rfl rfl).2.2.2.2.1⟩

/-- C8, counterexample: on a fresh dropdown the header trigger followed by the toggle
trigger (two `dropdown(true)` calls) leaves `m_down` true with two takeControl and no
yieldControl, a difference of 2; and a single `dropup()` leaves `m_down` false with one
yieldControl and no takeControl, a difference of -1. -/
theorem capture_counts_unbalanced :
    ((Dropdown.new.run [DropdownOp.headerTrigger, DropdownOp.toggleTrigger]).m_down = true ∧
      (takeCount (Dropdown.new.run [DropdownOp.headerTrigger, DropdownOp.toggleTrigger]).m_list : Int)
        - (yieldCount (Dropdown.new.run [DropdownOp.headerTrigger, DropdownOp.toggleTrigger]).m_list : Int)
        = 2) ∧
    ((Dropdown.new.run [DropdownOp.dropup]).m_down = false ∧
      (takeCount (Dropdown.new.run [DropdownOp.dropup]).m_list : Int)
        - (yieldCount (Dropdown.new.run [DropdownOp.dropup]).m_list : Int) = -1) := by
  decide

/-- Every call is `dropdown` (for the opening ones) or `dropup` (for the others). -/
theorem dropdown_step_eq (d : Dropdown) (op : DropdownOp) :
    d.step op = if op.opens then d.dropdown true else d.dropup := by
  cases op <;> rfl

/-- Alternating sequences keep the balance of control calls in step with `m_down`,
from any state where it holds. -/
theorem run_balance (ops : List DropdownOp) :
    ∀ d : Dropdown, d.Alternating ops →
      ((takeCount d.m_list : Int) - (yieldCount d.m_list : Int) = if d.m_down then 1 else 0) →
      (takeCount (d.run ops).m_list : Int) - (yieldCount (d.run ops).m_list : Int)
        = if (d.run ops).m_down then 1 else 0 := by
  induction ops with
  | nil => intro d _ h; exact h
  | cons op ops ih =>
    intro d halt hinv
    obtain ⟨hop, hrest⟩ := halt
    apply ih (d.step op) hrest
    rw [dropdown_step_eq]
    cases hdown : d.m_down with
    | false =>
      rw [hdown] at hop hinv
      simp only [Bool.not_false] at hop
      rw [hop, if_pos rfl]
      obtain ⟨m1, -, -, t1, y1⟩ := dropdown_effect d true
      rw [m1, t1, y1, if_pos rfl]
      simp only [Bool.false_eq_true, if_false] at hinv
      push_cast
      omega
    | true =>
      rw [hdown] at hop hinv
      simp only [Bool.not_true] at hop
      rw [hop]
      simp only [Bool.false_eq_true, if_false]
      obtain ⟨m1, -, -, t1, y1⟩ := dropup_effect d
      rw [m1, t1, y1]
      simp only [if_true] at hinv
      simp only [Bool.false_eq_true, if_false]
      push_cast
      omega

/-- C8, amended: after every sequence of `dropdown` and `dropup` calls (direct, or through
the button, header or toggle trigger, `DropdownList::leftClick` or a choice trigger) on
a freshly constructed dropdown in which the dropdown is opened only while `m_down` is
false and closed only while `m_down` is true, the number of takeControl calls on the
list minus the number of yieldControl calls is 1 when `m_down` is true and 0 when it
is false. -/
theorem capture_balanced_when_alternating (ops : List DropdownOp)
    (halt : Dropdown.new.Alternating ops) :
    (takeCount (Dropdown.new.run ops).m_list : Int) - (yieldCount (Dropdown.new.run ops).m_list : Int)
      = if (Dropdown.new.run ops).m_down then 1 else 0 := by
  apply run_balance ops Dropdown.new halt
  decide

/-- Witness of the amended C8: header trigger, list click, toggle trigger. -/
theorem capture_balanced_when_alternating_witness :
    (Dropdown.new.run [DropdownOp.headerTrigger, DropdownOp.listLeftClick,
        DropdownOp.toggleTrigger]).m_down = true ∧
      (takeCount (Dropdown.new.run [DropdownOp.headerTrigger, DropdownOp.listLeftClick,
        DropdownOp.toggleTrigger]).m_list : Int)
      - (yieldCount (Dropdown.new.run [DropdownOp.headerTrigger, DropdownOp.listLeftClick,
        DropdownOp.toggleTrigger]).m_list : Int) = 1 :=
  ⟨by decide,
    capture_balanced_when_alternating
      [DropdownOp.headerTrigger, DropdownOp.listLeftClick, DropdownOp.toggleTrigger]
      (by simp only [Dropdown.Alternating]; decide)⟩

/-! ### C9: the order of the steps of one UiWindow tick -/

/-- The calls of one tick: the two calls of `resize` when the render window's size
differs from the cached one, then render, render window, input window, clock, root
sheet. -/
theorem tickCalls_eq (u : UiWindow) (tick delta : Nat) :
    u.tickCalls tick delta =
      (if u.renderWidth ≠ toSizeT u.m_width ∨ u.renderHeight ≠ toSizeT u.m_height
        then [UiCall.inputWindowResize u.renderWidth u.renderHeight,
              UiCall.rootSheetFrameSetSize (u.renderWidth : ℚ) (u.renderHeight : ℚ)]
        else []) ++
      [UiCall.rootSheetTargetRender, UiCall.renderWindowNextFrame, UiCall.inputWindowNextFrame,
       UiCall.clockReadTick, UiCall.clockStepTick, UiCall.rootSheetNextFrame tick delta] := by
  unfold UiWindow.tickCalls UiWindow.nextFrame UiWindow.resize
  split_ifs <;> simp

/-- C9, counterexample: in a tick of the sample window the render of the root sheet's
target is the first call and the input window's `nextFrame` the third, so the input
step does not precede the paint step, and neither does the root sheet's `nextFrame`. -/
theorem tick_paints_before_input :
    sampleWindow.tickCalls 0 0 =
      [UiCall.rootSheetTargetRender, UiCall.renderWindowNextFrame, UiCall.inputWindowNextFrame,
       UiCall.clockReadTick, UiCall.clockStepTick, UiCall.rootSheetNextFrame 0 0] ∧
    ¬ Precedes UiCall.inputWindowNextFrame UiCall.rootSheetTargetRender
        (sampleWindow.tickCalls 0 0) ∧
    ¬ Precedes (UiCall.rootSheetNextFrame 0 0) UiCall.rootSheetTargetRender
        (sampleWindow.tickCalls 0 0) := by
  have hl : sampleWindow.tickCalls 0 0 =
      [UiCall.rootSheetTargetRender, UiCall.renderWindowNextFrame, UiCall.inputWindowNextFrame,
       UiCall.clockReadTick, UiCall.clockStepTick, UiCall.rootSheetNextFrame 0 0] := by
    decide
  refine ⟨hl, ?_, ?_⟩
  · intro h
    have h2 := h.2.2 2 0 (by rw [hl]; rfl) (by rw [hl]; rfl)
    omega
  · intro h
    have h2 := h.2.2 5 0 (by rw [hl]; rfl) (by rw [hl]; rfl)
    omega

/-- C9, amended: within each `UiWindow::nextFrame` tick the steps run in the fixed order
paint, then input, then dirty propagation: after the optional resize, the calls are
exactly the render of the root sheet's target, the render window's `nextFrame`, the
input window's `nextFrame`, the two clock reads and the root sheet's `nextFrame`; the
render precedes the input window's `nextFrame`, which precedes the root sheet's
`nextFrame`. -/
theorem tick_order (u : UiWindow) (tick delta : Nat) :
    (∃ pre, u.tickCalls tick delta = pre ++
        [UiCall.rootSheetTargetRender, UiCall.renderWindowNextFrame, UiCall.inputWindowNextFrame,
         UiCall.clockReadTick, UiCall.clockStepTick, UiCall.rootSheetNextFrame tick delta] ∧
      (pre = [] ∨ pre = [UiCall.inputWindowResize u.renderWidth u.renderHeight,
                         UiCall.rootSheetFrameSetSize (u.renderWidth : ℚ) (u.renderHeight : ℚ)])) ∧
    Precedes UiCall.rootSheetTargetRender UiCall.inputWindowNextFrame (u.tickCalls tick delta) ∧
    Precedes UiCall.inputWindowNextFrame (UiCall.rootSheetNextFrame tick delta)
      (u.tickCalls tick delta) ∧
    Precedes UiCall.rootSheetTargetRender (UiCall.rootSheetNextFrame tick delta)
      (u.tickCalls tick delta) := by
  rw [tickCalls_eq]
  split_ifs
  · refine ⟨⟨_, rfl, Or.inr rfl⟩, ?_, ?_, ?_⟩ <;>
    · refine ⟨by simp, by simp, ?_⟩
      intro i j hi hj
      rcases i with _|_|_|_|_|_|_|_|i <;> simp at hi
      rcases j with _|_|_|_|_|_|_|_|j <;> simp at hj
      omega
  · refine ⟨⟨_, rfl, Or.inl rfl⟩, ?_, ?_, ?_⟩ <;>
    · refine ⟨by simp, by simp, ?_⟩
      intro i j hi hj
      rcases i with _|_|_|_|_|_|i <;> simp at hi
      rcases j with _|_|_|_|_|_|j <;> simp at hj
      omega

/-! ### C10: the null flag of a BoxFloat built from zeros -/

/-- The four-component constructor and `assign` compute the flag from the components. -/
theorem null_mk4_iff (x0 y0 x1 y1 : ℚ) :
    (BoxFloat.mk4 x0 y0 x1 y1).null = true ↔ x0 = 0 ∧ y0 = 0 ∧ x1 = 0 ∧ y1 = 0 := by
  simp [BoxFloat.mk4, BoxFloat.null, BoxFloat.cnullOf, and_assoc]

/-- C10, counterexample: `BoxFloat(0,0,0,0)`, `BoxFloat(0.f)` and `assign(0,0,0,0)` on a
non-null box all give `null()` true, like the default constructor. -/
theorem zero_box_is_null :
    (BoxFloat.mkInt 0 0 0 0).null = true ∧ (BoxFloat.mk4 0 0 0 0).null = true ∧
    (BoxFloat.mkUniform 0).null = true ∧
    (BoxFloat.mk4 1 2 3 4).null = false ∧ ((BoxFloat.mk4 1 2 3 4).assign 0 0 0 0).null = true := by
  simp [BoxFloat.mkInt, BoxFloat.mkUniform, BoxFloat.mk4, BoxFloat.assign, BoxFloat.null,
    BoxFloat.cnullOf]

/-- C10, amended: the null flag does not distinguish an unset box from a box built from
zeros. The default-constructed BoxFloat has `null()` true, and so has a BoxFloat built
from four zero components (`BoxFloat(0,0,0,0)`, `BoxFloat(0.f)`, `assign(0,0,0,0)` on any
box); the four-component constructors and `assign` give `null()` true exactly when all
four components are zero. -/
theorem null_flag_of_built_box :
    BoxFloat.default.null = true ∧
    (BoxFloat.mkInt 0 0 0 0).null = true ∧ (BoxFloat.mk4 0 0 0 0).null = true ∧
    (BoxFloat.mkUniform 0).null = true ∧
    (∀ b : BoxFloat, (b.assign 0 0 0 0).null = true) ∧
    (∀ x0 y0 x1 y1 : ℚ,
      (BoxFloat.mk4 x0 y0 x1 y1).null = true ↔ x0 = 0 ∧ y0 = 0 ∧ x1 = 0 ∧ y1 = 0) ∧
    (∀ x0 y0 x1 y1 : Int,
      (BoxFloat.mkInt x0 y0 x1 y1).null = true ↔ x0 = 0 ∧ y0 = 0 ∧ x1 = 0 ∧ y1 = 0) ∧
    (∀ v : ℚ, (BoxFloat.mkUniform v).null = true ↔ v = 0) ∧
    (∀ (b : BoxFloat) (x0 y0 x1 y1 : ℚ),
      (b.assign x0 y0 x1 y1).null = true ↔ x0 = 0 ∧ y0 = 0 ∧ x1 = 0 ∧ y1 = 0) := by
  refine ⟨rfl, ?_, ?_, ?_, ?_, null_mk4_iff, ?_, ?_, ?_⟩
  · simp [BoxFloat.mkInt, null_mk4_iff]
  · simp [null_mk4_iff]
  · simp [BoxFloat.mkUniform, null_mk4_iff]
  · intro b
    simp [BoxFloat.assign, BoxFloat.null, BoxFloat.cnullOf]
  · intro x0 y0 x1 y1
    simp [BoxFloat.mkInt, null_mk4_iff]
  · intro v
    simp [BoxFloat.mkUniform, null_mk4_iff]
  · intro b x0 y0 x1 y1
    simp [BoxFloat.assign, BoxFloat.null, BoxFloat.cnullOf, and_assoc]

/-! ### C11: the null flag along sequences of operations -/

/-- The computed flag `cnull()` is true exactly when the four components are zero. -/
theorem cnullOf_iff (v : Fin 4 → ℚ) :
    BoxFloat.cnullOf v = true ↔ v 0 = 0 ∧ v 1 = 0 ∧ v 2 = 0 ∧ v 3 = 0 := by
  simp [BoxFloat.cnullOf, and_assoc]

/-- Every constructor leaves the flag true exactly when the components are zero. -/
theorem build_null_iff (c : BoxCtor) : c.build.null = true ↔ c.build.allZero := by
  cases c with
  | floats x0 y0 x1 y1 =>
    simp [BoxCtor.build, BoxFloat.mk4, BoxFloat.null, BoxFloat.allZero, cnullOf_iff]
  | ints x0 y0 x1 y1 =>
    simp [BoxCtor.build, BoxFloat.mkInt, BoxFloat.mk4, BoxFloat.null, BoxFloat.allZero,
      cnullOf_iff]
  | uniform val =>
    simp [BoxCtor.build, BoxFloat.mkUniform, BoxFloat.mk4, BoxFloat.null, BoxFloat.allZero,
      cnullOf_iff]
  | default =>
    simp [BoxCtor.build, BoxFloat.default, BoxFloat.mkUniform, BoxFloat.mk4, BoxFloat.null,
      BoxFloat.allZero]

/-- Every operation that goes neither through the non-const `operator[]` nor through
`pointer()` keeps the flag true exactly when the components are zero. -/
theorem apply_null_iff (b : BoxFloat) (o : BoxOp) (ho : o.viaReference = false)
    (hb : b.null = true ↔ b.allZero) : (b.apply o).null = true ↔ (b.apply o).allZero := by
  cases o with
  | copyAssign other =>
    simp [BoxFloat.apply, BoxFloat.copyAssign, BoxFloat.assign, BoxFloat.null, BoxFloat.allZero,
      cnullOf_iff]
  | assign x0 y0 x1 y1 =>
    simp [BoxFloat.apply, BoxFloat.assign, BoxFloat.null, BoxFloat.allZero, cnullOf_iff]
  | assignUniform val =>
    simp [BoxFloat.apply, BoxFloat.assignUniform, BoxFloat.null, BoxFloat.allZero, cnullOf_iff]
  | setX0 v =>
    simp only [BoxFloat.apply, BoxFloat.setX0, BoxFloat.null, BoxFloat.allZero, cnullOf_iff]
  | setY0 v =>
    simp only [BoxFloat.apply, BoxFloat.setY0, BoxFloat.null, BoxFloat.allZero, cnullOf_iff]
  | setX1 v =>
    simp only [BoxFloat.apply, BoxFloat.setX1, BoxFloat.null, BoxFloat.allZero, cnullOf_iff]
  | setY1 v =>
    simp only [BoxFloat.apply, BoxFloat.setY1, BoxFloat.null, BoxFloat.allZero, cnullOf_iff]
  | clear =>
    simp [BoxFloat.apply, BoxFloat.clear, BoxFloat.assignUniform, BoxFloat.null, BoxFloat.allZero]
  | copy => exact hb
  | subscriptConst i => exact hb
  | subscript i => simp [BoxOp.viaReference] at ho
  | subscriptWrite i v => simp [BoxOp.viaReference] at ho
  | pointerWrite i v => simp [BoxOp.viaReference] at ho

/-- Sequences of operations that avoid the non-const `operator[]` and `pointer()` keep
the flag true exactly when the components are zero. -/
theorem run_null_iff (ops : List BoxOp) :
    ∀ b : BoxFloat, (∀ o ∈ ops, o.viaReference = false) → (b.null = true ↔ b.allZero) →
      ((b.run ops).null = true ↔ (b.run ops).allZero) := by
  induction ops with
  | nil => intro b _ hb; exact hb
  | cons o ops ih =>
    intro b h hb
    exact ih (b.apply o) (fun o2 h2 => h o2 (List.mem_cons_of_mem o h2))
      (apply_null_iff b o (h o (List.mem_cons_self o ops)) hb)

/-- C11, counterexample: a default-constructed box read through the non-const
`operator[]` has all four components zero and `null()` false; so has the box
`BoxFloat(1,0,0,0)` after the store `box[0] = 0`. In the other direction, a
default-constructed box after the store `box.pointer()[2] = 10` has a non-zero
component and `null()` true. -/
theorem null_flag_diverges_from_components :
    ((BoxCtor.default.build.run [BoxOp.subscript 0]).allZero ∧
      (BoxCtor.default.build.run [BoxOp.subscript 0]).null = false) ∧
    (((BoxCtor.floats 1 0 0 0).build.run [BoxOp.subscriptWrite 0 0]).allZero ∧
      ((BoxCtor.floats 1 0 0 0).build.run [BoxOp.subscriptWrite 0 0]).null = false) ∧
    (¬ (BoxCtor.default.build.run [BoxOp.pointerWrite 2 10]).allZero ∧
      (BoxCtor.default.build.run [BoxOp.pointerWrite 2 10]).null = true) := by
  refine ⟨⟨?_, rfl⟩, ⟨?_, rfl⟩, ⟨?_, rfl⟩⟩
  · simp [BoxFloat.run, BoxFloat.apply, BoxFloat.subscript, BoxCtor.build, BoxFloat.default,
      BoxFloat.mkUniform, BoxFloat.mk4, BoxFloat.allZero]
  · simp [BoxFloat.run, BoxFloat.apply, BoxFloat.subscriptWrite, BoxFloat.subscript,
      BoxCtor.build, BoxFloat.mk4, BoxFloat.allZero, Function.update]
  · simp [BoxFloat.run, BoxFloat.apply, BoxFloat.pointerWrite, BoxCtor.build, BoxFloat.default,
      BoxFloat.mkUniform, BoxFloat.mk4, BoxFloat.allZero, Function.update]

/-- C11, amended: after any constructor followed by any sequence of copy-assignment,
`assign` (either overload), `setX0`/`setY0`/`setX1`/`setY1`, `clear`, copy-construction
and reads through the const `operator[]`, `null()` is true exactly when all four
components are zero. The two public members that give access to the components are
excluded, because they break it: the non-const `operator[]` sets the flag to false
whatever the components are, for a read as for a store, and a store through
`pointer()` changes a component and leaves the flag as it was. -/
theorem null_iff_all_zero_without_reference (c : BoxCtor) (ops : List BoxOp)
    (h : ∀ o ∈ ops, o.viaReference = false) :
    ((c.build.run ops).null = true ↔ (c.build.run ops).allZero) ∧
    (∀ (b : BoxFloat) (i : Fin 4), (b.subscript i).2.null = false) ∧
    (∀ (b : BoxFloat) (i : Fin 4) (v : ℚ), (b.subscriptWrite i v).null = false) ∧
    (∀ (b : BoxFloat) (i : Fin 4) (v : ℚ),
      (b.pointerWrite i v).null = b.null ∧ (b.pointerWrite i v).d_values i = v) :=
  ⟨run_null_iff ops c.build h (build_null_iff c), fun _ _ => rfl, fun _ _ _ => rfl,
    fun b i v => ⟨rfl, by simp [BoxFloat.pointerWrite]⟩⟩

/-- Witness of the amended C11: a default box, `setX0(1)`, `setX0(0)`, a const read. -/
theorem null_iff_all_zero_without_reference_witness :
    ((BoxCtor.default.build.run
        [BoxOp.setX0 1, BoxOp.setX0 0, BoxOp.subscriptConst 2]).null = true ↔
      (BoxCtor.default.build.run
        [BoxOp.setX0 1, BoxOp.setX0 0, BoxOp.subscriptConst 2]).allZero) :=
  (null_iff_all_zero_without_reference BoxCtor.default
    [BoxOp.setX0 1, BoxOp.setX0 0, BoxOp.subscriptConst 2]
    (by simp [BoxOp.viaReference])).1

/-! ### C12: the scan of breakTextReturns reads the character at `end` -/

/-- The scan over a range without newline after its first character: it stops with
`iter` at `end`, having read and bound-checked every position after `first` and
before `end`, and then read position `end`. -/
theorem scanReturns_no_newline (mem : Nat → Nat) (end_ : Nat) :
    ∀ fuel iter : Nat, iter < end_ → (∀ p, iter < p → p < end_ → mem p ≠ NEWLINE) →
      end_ - iter ≤ fuel →
      scanReturns mem end_ fuel iter = some (end_,
        (List.range' (iter + 1) (end_ - iter - 1)).flatMap
            (fun p => [ScanEvent.deref p, ScanEvent.bound p]) ++
          ScanEvent.deref end_ :: (if mem end_ ≠ NEWLINE then [ScanEvent.bound end_] else [])) := by
  intro fuel
  induction fuel with
  | zero => intro iter hlt _ hf; omega
  | succ fuel ih =>
    intro iter hlt hnl hf
    unfold scanReturns
    by_cases hnext : iter + 1 < end_
    · have hm := hnl (iter + 1) (by omega) hnext
      rw [if_pos hm, if_pos hnext,
        ih (iter + 1) hnext (fun p hp hq => hnl p (by omega) hq) (by omega)]
      have hlen : end_ - iter - 1 = (end_ - (iter + 1) - 1) + 1 := by omega
      rw [hlen, List.range'_succ, List.flatMap_cons]
      simp
    · have he : end_ = iter + 1 := by omega
      subst he
      by_cases hm : mem (iter + 1) ≠ NEWLINE
      · rw [if_pos hm, if_neg hnext]
        simp [hm]
      · rw [if_neg hm]
        simp [hm]

/-- C12: for every non-empty range [first, end) with no newline after its first
character, the scan of `breakTextReturns` ends with `row.end = end` and its events are:
for each position strictly between `first` and `end`, the read `*iter` then the test
`iter < end`; then the read `*iter` at position `end`, outside the range, followed by
the test `iter < end` at `end` only if that character is not a newline. So the
character at `end` is dereferenced, and no test `iter < end` with `iter` at `end`
comes before that read. -/
theorem breakTextReturns_reads_end (mem : Nat → Nat) (first end_ : Nat) (row : TextRow)
    (hne : first < end_) (hnl : ∀ p, first < p → p < end_ → mem p ≠ NEWLINE) :
    ∃ pre : List ScanEvent,
      NanoRenderer.breakTextReturns mem first end_ row =
        some ({ row with start := first, end_ := end_ },
          pre ++ ScanEvent.deref end_ ::
            (if mem end_ ≠ NEWLINE then [ScanEvent.bound end_] else [])) ∧
      pre = (List.range' (first + 1) (end_ - first - 1)).flatMap
              (fun p => [ScanEvent.deref p, ScanEvent.bound p]) ∧
      ScanEvent.bound end_ ∉ pre ∧ ScanEvent.deref end_ ∉ pre := by
  refine ⟨_, ?_, rfl, ?_, ?_⟩
  · unfold NanoRenderer.breakTextReturns
    rw [scanReturns_no_newline mem end_ (end_ - first + 1) first hne hnl (by omega)]
  · intro hmem
    rw [List.mem_flatMap] at hmem
    obtain ⟨p, hp, hin⟩ := hmem
    rw [List.mem_range'_1] at hp
    simp at hin
    omega
  · intro hmem
    rw [List.mem_flatMap] at hmem
    obtain ⟨p, hp, hin⟩ := hmem
    rw [List.mem_range'_1] at hp
    simp at hin
    omega

/-- Witness of C12 on the text "abc" (codes 97, 98, 99) and the range [0, 3): the
last read is at position 3, where the terminating zero of `c_str()` is. -/
theorem breakTextReturns_reads_end_witness :
    ∃ pre : List ScanEvent,
      NanoRenderer.breakTextReturns (cstr [97, 98, 99]) 0 3
          { start := 0, end_ := 0, startIndex := 0, endIndex := 0 } =
        some ({ start := 0, end_ := 3, startIndex := 0, endIndex := 0 },
          pre ++ ScanEvent.deref 3 ::
            (if cstr [97, 98, 99] 3 ≠ NEWLINE then [ScanEvent.bound 3] else [])) ∧
      pre = (List.range' (0 + 1) (3 - 0 - 1)).flatMap
              (fun p => [ScanEvent.deref p, ScanEvent.bound p]) ∧
      ScanEvent.bound 3 ∉ pre ∧ ScanEvent.deref 3 ∉ pre :=
  breakTextReturns_reads_end (cstr [97, 98, 99]) 0 3
    { start := 0, end_ := 0, startIndex := 0, endIndex := 0 } (by decide)
    (by
      intro p h1 h2
      have hp : p = 1 ∨ p = 2 := by omega
      rcases hp with rfl | rfl <;> decide)

/-! ### C13: every dismissal is one Dropdown::dropup -/

/-- `DropdownInput::select` does not touch the `Dropdown` base object. -/
theorem select_base (A : Nat) (d : DropdownInput) (c : Nat) : (d.select A c).base = d.base := by
  unfold DropdownInput.select DropdownInput.updateHead
  cases d.m_selected <;> rfl

/-- C13: on an open dropdown, a left click on the list, the trigger `Dropdown::addChoice`
installs on a choice, and `DropdownInput::selected` each leave the dropdown's list and
`m_down` exactly as one `Dropdown::dropup()` does: the list is hidden, it has received
hide and one yieldControl after its earlier calls (and no takeControl), and `m_down`
is false. -/
theorem dismissals_are_dropup (A : Nat) (d : DropdownInput) (c : Nat)
    (hopen : d.base.m_down = true) :
    DropdownList.leftClick d.base = d.base.dropup ∧
    d.base.choiceTrigger = d.base.dropup ∧
    (d.selected A c).base = d.base.dropup ∧
    (d.selected A c).base.m_list.visible = false ∧
    (d.selected A c).base.m_down = false ∧
    (d.selected A c).base.m_list.calls
      = d.base.m_list.calls ++ [ListCall.hide, ListCall.yieldControl] ∧
    yieldCount (d.selected A c).base.m_list = yieldCount d.base.m_list + 1 ∧
    takeCount (d.selected A c).base.m_list = takeCount d.base.m_list := by
  have hsel : (d.selected A c).base = d.base.dropup := by
    unfold DropdownInput.selected
    simp only [hopen, if_true]
    split_ifs <;> simp [select_base]
  obtain ⟨m1, v1, c1, t1, y1⟩ := dropup_effect d.base
  refine ⟨rfl, rfl, hsel, ?_, ?_, ?_, ?_, ?_⟩
  · rw [hsel]; exact v1
  · rw [hsel]; exact m1
  · rw [hsel]; exact c1
  · rw [hsel]; exact y1
  · rw [hsel]; exact t1

/-! ### C14: Widget::receiveEvent -/

/-- C14: `Widget::receiveEvent` returns the widget itself and leaves a consumed event as
it is (visited list and relative coordinates included). Otherwise it delegates to
`InputWidget::receiveEvent` an event that differs from the one received in this only:
the widget is appended at the end of `visited`, and for a mouse event (device type at
least DEVICE_MOUSE) `relativeX`, `relativeY` are `frame.localPosition(posX, posY)`; for
another device the relative coordinates are unchanged. -/
theorem receiveEvent_contract (K : InputConstants) (localPosition : ℚ → ℚ → ℚ × ℚ)
    (inputWidgetReceiveEvent : Nat → InputEvent → Nat × InputEvent)
    (self : Nat) (ev : InputEvent) :
    (ev.consumed = true →
      Widget.receiveEvent K localPosition inputWidgetReceiveEvent self ev = (self, ev)) ∧
    (ev.consumed = false →
      ∃ e : InputEvent,
        Widget.receiveEvent K localPosition inputWidgetReceiveEvent self ev
          = inputWidgetReceiveEvent self e ∧
        e.visited = ev.visited ++ [self] ∧
        e.deviceType = ev.deviceType ∧ e.consumed = ev.consumed ∧
        e.posX = ev.posX ∧ e.posY = ev.posY ∧
        (K.DEVICE_MOUSE ≤ ev.deviceType →
          (e.relativeX, e.relativeY) = localPosition ev.posX ev.posY) ∧
        (ev.deviceType < K.DEVICE_MOUSE →
          e.relativeX = ev.relativeX ∧ e.relativeY = ev.relativeY)) := by
  constructor
  · intro hc
    unfold Widget.receiveEvent
    rw [if_pos hc]
  · intro hc
    unfold Widget.receiveEvent
    simp only [hc, Bool.false_eq_true, if_false]
    by_cases hm : ev.deviceType ≥ K.DEVICE_MOUSE
    · rw [if_pos hm]
      exact ⟨_, rfl, rfl, rfl, hc.symm ▸ rfl, rfl, rfl, fun _ => rfl, fun h => absurd hm (by omega)⟩
    · rw [if_neg hm]
      exact ⟨_, rfl, rfl, rfl, hc.symm ▸ rfl, rfl, rfl, fun h => absurd h hm, fun _ => ⟨rfl, rfl⟩⟩

/-- Witness of C13 on the sample open dropdown input, choice 3 selected. -/
theorem dismissals_are_dropup_witness :
    sampleDropdownInput.base.m_down = true ∧
      (sampleDropdownInput.selected 4 3).base = sampleDropdownInput.base.dropup ∧
      (sampleDropdownInput.selected 4 3).base.m_list.visible = false ∧
      (sampleDropdownInput.selected 4 3).base.m_down = false :=
  ⟨rfl, (dismissals_are_dropup 4 sampleDropdownInput 3 rfl).2.2.1,
    (dismissals_are_dropup 4 sampleDropdownInput 3 rfl).2.2.2.1,
    (dismissals_are_dropup 4 sampleDropdownInput 3 rfl).2.2.2.2.1⟩

/-- Witness of C14: a consumed sample mouse event comes back untouched from widget 5. -/
theorem receiveEvent_contract_witness :
    (sampleEvent 2 true).consumed = true ∧
      Widget.receiveEvent sampleConstants sampleLocalPosition sampleBaseReceive 5
          (sampleEvent 2 true) = (5, sampleEvent 2 true) :=
  ⟨rfl, (receiveEvent_contract sampleConstants sampleLocalPosition sampleBaseReceive 5
    (sampleEvent 2 true)).1 rfl⟩

/-- An unconsumed sample mouse event at (15, 25) reaches the base class with widget 5
appended to `visited` and the relative position (5, 5). -/
theorem receiveEvent_mouse_example :
    (Widget.receiveEvent sampleConstants sampleLocalPosition sampleBaseReceive 5
        (sampleEvent 2 false)).2.visited = [1, 5] ∧
    (Widget.receiveEvent sampleConstants sampleLocalPosition sampleBaseReceive 5
        (sampleEvent 2 false)).2.relativeX = 5 ∧
    (Widget.receiveEvent sampleConstants sampleLocalPosition sampleBaseReceive 5
        (sampleEvent 2 false)).2.relativeY = 5 := by
  refine ⟨rfl, ?_, ?_⟩ <;>
    simp [Widget.receiveEvent, sampleEvent, sampleConstants, sampleLocalPosition,
      sampleBaseReceive] <;> norm_num

/-! ### C15: Widget::controlEvent without a consuming controller -/

/-- The guard of `Widget::pinpoint`: on a MAPPING-dirty frame the result is null. -/
theorem pinpoint_guard (w : Widget) (x y : ℚ) (h : DIRTY_MAPPING ≤ w.m_frame.dirty) :
    (w.pinpoint x y).1 = none := by
  unfold Widget.pinpoint
  rw [if_pos h]

/-- When no controller consumes the event, `Widget::controlEvent` runs its second part. -/
theorem controlEvent_eq_direct (K : InputConstants) (iw : InputWidget) (ev : InputEvent)
    (hc : ∀ c, iw.m_controller = some c → c.consumes ev.deviceType = false) :
    iw.controlEvent K ev = iw.controlEventDirect K ev := by
  unfold InputWidget.controlEvent
  cases hm : iw.m_controller with
  | none => rfl
  | some c =>
    simp only []
    rw [if_neg (by rw [hc c hm]; decide)]

/-- C15: when no controller consumes the event, `Widget::controlEvent` never returns
null. For a mouse event (device type at least DEVICE_MOUSE) with control mode below
CM_ABSOLUTE it returns the widget `Widget::pinpoint` finds at the event's position, or
the widget itself when `pinpoint` returns null, which is the case when the frame is
MAPPING-dirty; for every other device type or control mode it returns the widget
itself. -/
theorem controlEvent_never_null (K : InputConstants) (iw : InputWidget) (ev : InputEvent)
    (hc : ∀ c, iw.m_controller = some c → c.consumes ev.deviceType = false) :
    (iw.controlEvent K ev).1 ≠ none ∧
    (K.DEVICE_MOUSE ≤ ev.deviceType → iw.m_controlMode < K.CM_ABSOLUTE →
      (iw.controlEvent K ev).1
        = some ((iw.widget.pinpoint ev.posX ev.posY).1.getD iw.self)) ∧
    (K.DEVICE_MOUSE ≤ ev.deviceType → iw.m_controlMode < K.CM_ABSOLUTE →
      DIRTY_MAPPING ≤ iw.widget.m_frame.dirty → (iw.controlEvent K ev).1 = some iw.self) ∧
    (¬ (K.DEVICE_MOUSE ≤ ev.deviceType ∧ iw.m_controlMode < K.CM_ABSOLUTE) →
      (iw.controlEvent K ev).1 = some iw.self) := by
  rw [controlEvent_eq_direct K iw ev hc]
  have hmouse : K.DEVICE_MOUSE ≤ ev.deviceType → iw.m_controlMode < K.CM_ABSOLUTE →
      (iw.controlEventDirect K ev).1
        = some ((iw.widget.pinpoint ev.posX ev.posY).1.getD iw.self) := by
    intro h1 h2
    unfold InputWidget.controlEventDirect
    rw [if_pos ⟨h1, h2⟩]
    simp only []
    cases hp : (iw.widget.pinpoint ev.posX ev.posY).1 <;> simp
  have hother : ¬ (K.DEVICE_MOUSE ≤ ev.deviceType ∧ iw.m_controlMode < K.CM_ABSOLUTE) →
      (iw.controlEventDirect K ev).1 = some iw.self := by
    intro h
    unfold InputWidget.controlEventDirect
    rw [if_neg h]
  refine ⟨?_, hmouse, ?_, hother⟩
  · by_cases h : K.DEVICE_MOUSE ≤ ev.deviceType ∧ iw.m_controlMode < K.CM_ABSOLUTE
    · rw [hmouse h.1 h.2]; simp
    · rw [hother h]; simp
  · intro h1 h2 hd
    rw [hmouse h1 h2, pinpoint_guard iw.widget ev.posX ev.posY hd]
    rfl

/-- Witness of C15: the clean sample widget 5 in control mode 1 hands a mouse event to
the widget its hit test finds, widget 42. -/
theorem controlEvent_never_null_witness :
    ((sampleInputWidget 0 1).controlEvent sampleConstants (sampleEvent 2 false)).1 ≠ none ∧
      ((sampleInputWidget 0 1).controlEvent sampleConstants (sampleEvent 2 false)).1 = some 42 :=
  ⟨(controlEvent_never_null sampleConstants (sampleInputWidget 0 1) (sampleEvent 2 false)
      (by intro c h; cases h)).1,
    (controlEvent_never_null sampleConstants (sampleInputWidget 0 1) (sampleEvent 2 false)
      (by intro c h; cases h)).2.1 (by decide) (by decide)⟩

/-! ### C17: enableState and disableState on a single flag -/

/-- After `enableState` of a single flag the flag is set, so a second call does nothing. -/
theorem enableState_flag_set (w : Widget) (i : Nat) :
    (w.enableState (2 ^ i)).m_state &&& 2 ^ i ≠ 0 := by
  rw [Ne, and_two_pow_eq_zero_iff, enableState_testBit]
  simp

/-- After `disableState` of a single flag the flag is clear. -/
theorem disableState_flag_clear (w : Widget) (i : Nat) :
    (w.disableState (2 ^ i)).m_state &&& 2 ^ i = 0 := by
  rw [and_two_pow_eq_zero_iff, disableState_testBit]
  simp

/-- `enableState` of a mask one of whose flags is set does nothing. -/
theorem enableState_of_set (w : Widget) (s : Nat) (h : w.m_state &&& s ≠ 0) :
    w.enableState s = w := by
  unfold Widget.enableState
  rw [if_neg h]

/-- `disableState` of a mask none of whose flags is set does nothing. -/
theorem disableState_of_clear (w : Widget) (s : Nat) (h : w.m_state &&& s = 0) :
    w.disableState s = w := by
  unfold Widget.disableState
  rw [if_neg (not_not.mpr h)]

/-- C17: for every single flag `s = 2 ^ i` and every prior state `m`, `enableState(s)` leaves
the state `m | s` and `disableState(s)` leaves `m & ~s` (bit by bit, and as the 32-bit
complement when `m` is a 32-bit mask). Both are idempotent (the second call leaves the
whole widget as the first left it), neither changes another bit, and `disableState(s)`
after `enableState(s)` restores `m` when `s` was clear in `m`. -/
theorem enable_disable_single_flag (w : Widget) (s i : Nat) (hs : s = 2 ^ i) :
    (w.enableState s).m_state = w.m_state ||| s ∧
    (∀ k, (w.disableState s).m_state.testBit k = (w.m_state.testBit k && !s.testBit k)) ∧
    (w.m_state < 2 ^ 32 → i < 32 →
      (w.disableState s).m_state = w.m_state &&& (2 ^ 32 - 1 - s)) ∧
    (w.enableState s).enableState s = w.enableState s ∧
    (w.disableState s).disableState s = w.disableState s ∧
    (∀ k, k ≠ i →
      (w.enableState s).m_state.testBit k = w.m_state.testBit k ∧
      (w.disableState s).m_state.testBit k = w.m_state.testBit k) ∧
    (¬ flagSet w.m_state s → ((w.enableState s).disableState s).m_state = w.m_state) := by
  subst hs
  refine ⟨?_, ?_, ?_, ?_, ?_, ?_, ?_⟩
  · apply Nat.eq_of_testBit_eq
    intro k
    rw [enableState_testBit, Nat.testBit_or, Nat.testBit_two_pow]
  · intro k
    rw [disableState_testBit, Nat.testBit_two_pow]
  · intro hm hi
    apply Nat.eq_of_testBit_eq
    intro k
    have hlt : 2 ^ i < 2 ^ 32 := Nat.pow_lt_pow_right (by decide) hi
    rw [disableState_testBit, Nat.testBit_and, Nat.sub_sub, Nat.add_comm 1 (2 ^ i),
      Nat.testBit_two_pow_sub_succ hlt, Nat.testBit_two_pow]
    by_cases hk : k < 32
    · simp [hk]
    · have hmk : w.m_state.testBit k = false :=
        Nat.testBit_lt_two_pow
          (lt_of_lt_of_le hm (Nat.pow_le_pow_right (by decide) (Nat.not_lt.mp hk)))
      simp [hmk]
  · exact enableState_of_set _ _ (enableState_flag_set w i)
  · exact disableState_of_clear _ _ (disableState_flag_clear w i)
  · intro k hk
    rw [enableState_testBit, disableState_testBit]
    simp [Ne.symm hk]
  · intro hclear
    rw [flagSet_two_pow] at hclear
    apply Nat.eq_of_testBit_eq
    intro k
    rw [disableState_testBit, enableState_testBit]
    by_cases hik : i = k
    · subst hik
      simp at hclear
      simp [hclear]
    · simp [hik]

/-- Witness of C17: on the sample widget in state 32 (PRESSED), enabling HOVERED (8)
gives 40, and disabling it again restores 32. -/
theorem enable_disable_single_flag_witness :
    (8 : Nat) = 2 ^ 3 ∧ ¬ flagSet (sampleWidget 32 0 7).m_state 8 ∧
      ((sampleWidget 32 0 7).enableState 8).m_state = 40 ∧
      (((sampleWidget 32 0 7).enableState 8).disableState 8).m_state = 32 :=
  ⟨by decide, by decide,
    (enable_disable_single_flag (sampleWidget 32 0 7) 8 3 (by decide)).1,
    (enable_disable_single_flag (sampleWidget 32 0 7) 8 3 (by decide)).2.2.2.2.2.2 (by decide)⟩

/-! ### C18: enableState and disableState on a mask of several flags -/

/-- C18, counterexample: in state 8 (HOVERED set, PRESSED clear) and for the mask 40
(HOVERED and PRESSED), `enableState(40)` leaves the flag 32 of the mask clear, and
`disableState(40)` leaves it set. -/
theorem mask_of_two_flags_fails :
    (flagSet 40 32 ∧ flagSet 40 8) ∧
    ((sampleWidget 8 0 7).enableState 40).m_state = 8 ∧
    ¬ flagSet ((sampleWidget 8 0 7).enableState 40).m_state 32 ∧
    ((sampleWidget 8 0 7).disableState 40).m_state = 32 ∧
    flagSet ((sampleWidget 8 0 7).disableState 40).m_state 32 := by
  decide

/-- Toggling a mask none of whose flags is set sets them all. -/
theorem toggle_sets_all (m s : Nat) (h : m &&& s = 0) : (m ^^^ s) &&& s = s := by
  apply Nat.eq_of_testBit_eq
  intro k
  have hk := congrArg (fun n => n.testBit k) h
  simp only [Nat.testBit_and, Nat.testBit_xor, Nat.zero_testBit] at hk ⊢
  cases hm : m.testBit k <;> cases hs : s.testBit k <;> simp_all

/-- Toggling a mask clears all its flags exactly when they were all set. -/
theorem toggle_clears_all_iff (m s : Nat) : (m ^^^ s) &&& s = 0 ↔ m &&& s = s := by
  constructor
  · intro h
    apply Nat.eq_of_testBit_eq
    intro k
    have hk := congrArg (fun n => n.testBit k) h
    simp only [Nat.testBit_and, Nat.testBit_xor, Nat.zero_testBit] at hk ⊢
    cases hm : m.testBit k <;> cases hs : s.testBit k <;> simp_all
  · intro h
    apply Nat.eq_of_testBit_eq
    intro k
    have hk := congrArg (fun n => n.testBit k) h
    simp only [Nat.testBit_and, Nat.testBit_xor, Nat.zero_testBit] at hk ⊢
    cases hm : m.testBit k <;> cases hs : s.testBit k <;> simp_all

/-- C18, amended: for every single flag `s` and every prior widget state, after
`disableState(s)` the flag is clear and after `enableState(s)` it is set. For an
arbitrary mask `s`, every flag of `s` is set after `enableState(s)` (state `& s` is `s`),
and no flag of `s` is set after `disableState(s)` (state `& s` is 0), exactly when the
prior state has none or all of the flags of `s` set. -/
theorem mask_enable_disable (w : Widget) (s : Nat) :
    ((w.enableState s).m_state &&& s = s ↔ (w.m_state &&& s = 0 ∨ w.m_state &&& s = s)) ∧
    ((w.disableState s).m_state &&& s = 0 ↔ (w.m_state &&& s = 0 ∨ w.m_state &&& s = s)) ∧
    (∀ i, s = 2 ^ i →
      flagSet (w.enableState s).m_state s ∧ ¬ flagSet (w.disableState s).m_state s) := by
  refine ⟨?_, ?_, ?_⟩
  · rw [enableState_state]
    by_cases h : w.m_state &&& s = 0
    · rw [if_pos h]
      exact ⟨fun _ => Or.inl h, fun _ => toggle_sets_all _ _ h⟩
    · rw [if_neg h]
      exact ⟨fun h2 => Or.inr h2, fun h2 => h2.resolve_left h⟩
  · rw [disableState_state]
    by_cases h : w.m_state &&& s ≠ 0
    · rw [if_pos h, toggle_clears_all_iff]
      exact ⟨fun h2 => Or.inr h2, fun h2 => h2.resolve_left h⟩
    · rw [if_neg h]
      rw [not_not] at h
      exact ⟨fun _ => Or.inl h, fun _ => h⟩
  · intro i hs
    subst hs
    exact ⟨enableState_flag_set w i, not_not.mpr (disableState_flag_clear w i)⟩

/-- Witness of the amended C18: the single flag 8 on the sample widget in state 32. -/
theorem mask_enable_disable_witness :
    flagSet ((sampleWidget 32 0 7).enableState 8).m_state 8 ∧
      ¬ flagSet ((sampleWidget 32 0 7).disableState 8).m_state 8 :=
  (mask_enable_disable (sampleWidget 32 0 7) 8).2.2 3 (by decide)

/-! ### C19: at most one activated choice in a DropdownInput -/

/-- One `select` call, from a state in which the ACTIVATED choices are exactly the
selected one (none if nothing is selected): afterwards the argument is selected and is
the only ACTIVATED choice. -/
theorem select_step (A i : Nat) (hA : A = 2 ^ i) (d : DropdownInput) (c : Nat)
    (hinv : ∀ k, flagSet (d.choices k).m_state A ↔ d.m_selected = some k) :
    (d.select A c).m_selected = some c ∧
    ∀ k, flagSet ((d.select A c).choices k).m_state A ↔ k = c := by
  subst hA
  unfold DropdownInput.select DropdownInput.updateHead
  cases hsel : d.m_selected with
  | none =>
    refine ⟨rfl, fun k => ?_⟩
    simp only []
    by_cases hk : k = c
    · subst hk
      rw [Function.update_same]
      exact ⟨fun _ => rfl, fun _ => enableState_flag_set _ i⟩
    · rw [Function.update_noteq hk, hinv k, hsel]
      simp [hk]
  | some old =>
    refine ⟨rfl, fun k => ?_⟩
    simp only []
    by_cases hk : k = c
    · subst hk
      rw [Function.update_same]
      exact ⟨fun _ => rfl, fun _ => enableState_flag_set _ i⟩
    · rw [Function.update_noteq hk]
      by_cases hko : k = old
      · subst hko
        rw [Function.update_same]
        exact ⟨fun h => absurd (disableState_flag_clear _ i) h, fun h => absurd h hk⟩
      · rw [Function.update_noteq hko, hinv k, hsel]
        simp only [Option.some.injEq]
        exact ⟨fun h => absurd h.symm hko, fun h => absurd h hk⟩

/-- Sequences of `select` calls keep the ACTIVATED choices exactly the selected one. -/
theorem selectAll_invariant (A i : Nat) (hA : A = 2 ^ i) (cs : List Nat) :
    ∀ d : DropdownInput,
      (∀ k, flagSet (d.choices k).m_state A ↔ d.m_selected = some k) →
      ∀ k, flagSet ((d.selectAll A cs).choices k).m_state A ↔
        (d.selectAll A cs).m_selected = some k := by
  induction cs with
  | nil => intro d h; exact h
  | cons c cs ih =>
    intro d h
    apply ih (d.select A c)
    intro k
    obtain ⟨h1, h2⟩ := select_step A i hA d c h
    rw [h2 k, h1]
    simp only [Option.some.injEq]
    exact eq_comm

/-- C19: ACTIVATED being a single flag, starting with no choice selected and no choice
ACTIVATED, after any sequence of `DropdownInput::select` calls whose last argument is
`c` (whatever the earlier arguments, `c` itself included), `m_selected` is `c` and the
choices with the ACTIVATED flag set are exactly `c`. -/
theorem select_exactly_one_activated (A i : Nat) (hA : A = 2 ^ i) (d : DropdownInput)
    (h0 : d.m_selected = none) (h1 : ∀ k, ¬ flagSet (d.choices k).m_state A)
    (earlier : List Nat) (c : Nat) :
    (d.selectAll A (earlier ++ [c])).m_selected = some c ∧
    ∀ k, flagSet ((d.selectAll A (earlier ++ [c])).choices k).m_state A ↔ k = c := by
  have hsplit : d.selectAll A (earlier ++ [c]) = (d.selectAll A earlier).select A c := by
    simp [DropdownInput.selectAll, List.foldl_append]
  rw [hsplit]
  apply select_step A i hA
  apply selectAll_invariant A i hA earlier d
  intro k
  rw [h0]
  simp [h1 k]

/-- Witness of C19 on the sample dropdown input with ACTIVATED = 4: choice 3 selected
twice in a row after choice 1. -/
theorem select_exactly_one_activated_witness :
    (sampleDropdownInput.selectAll 4 ([1, 3] ++ [3])).m_selected = some 3 ∧
      ∀ k, flagSet ((sampleDropdownInput.selectAll 4 ([1, 3] ++ [3])).choices k).m_state 4 ↔
        k = 3 :=
  select_exactly_one_activated 4 2 (by decide) sampleDropdownInput rfl
    (fun k => by show ¬ flagSet 0 4; decide) [1, 3] 3

/-! ### C20: rows of breakText and newlines -/

/-- C20, evaluation at the failing input: with text breaking on and wrapping off, the
text "a\n\nb" (codes 97, 10, 10, 98) is broken into the rows [0, 1) and [2, 4), and the
second row holds the characters 10, 98: it starts with a newline. The one-character
text "\n" gives the single row [0, 1), which is a newline. -/
theorem breakText_row_starts_with_newline :
    NanoRenderer.breakText breakOnReturns noBreakWidth 5 [97, 10, 10, 98]
      = some [{ start := 0, end_ := 1, startIndex := 0, endIndex := 1 },
              { start := 2, end_ := 4, startIndex := 2, endIndex := 4 }] ∧
    TextRow.chars [97, 10, 10, 98] { start := 2, end_ := 4, startIndex := 2, endIndex := 4 }
      = [NEWLINE, 98] ∧
    NanoRenderer.breakText breakOnReturns noBreakWidth 2 [10]
      = some [{ start := 0, end_ := 1, startIndex := 0, endIndex := 1 }] ∧
    TextRow.chars [10] { start := 0, end_ := 1, startIndex := 0, endIndex := 1 } = [NEWLINE] := by
  decide

/-- What the scan returns: it moves `iter` forward, and no position strictly between the
starting `iter` and the final one holds a newline. The first character of the range is
never examined. -/
theorem scanReturns_result (mem : Nat → Nat) (end_ : Nat) :
    ∀ (fuel iter : Nat) (r : Nat × List ScanEvent), scanReturns mem end_ fuel iter = some r →
      iter < r.1 ∧ (∀ p, iter < p → p < r.1 → mem p ≠ NEWLINE) := by
  intro fuel
  induction fuel with
  | zero => intro iter r h; simp [scanReturns] at h
  | succ fuel ih =>
    intro iter r h
    unfold scanReturns at h
    by_cases hm : mem (iter + 1) ≠ NEWLINE
    · rw [if_pos hm] at h
      by_cases hlt : iter + 1 < end_
      · rw [if_pos hlt] at h
        cases hrec : scanReturns mem end_ fuel (iter + 1) with
        | none => rw [hrec] at h; simp at h
        | some r2 =>
          rw [hrec] at h
          simp only [Option.some.injEq] at h
          obtain ⟨h1, h2⟩ := ih (iter + 1) r2 hrec
          subst h
          refine ⟨by simp only; omega, ?_⟩
          intro p hp hq
          by_cases hpe : p = iter + 1
          · rw [hpe]; exact hm
          · exact h2 p (by omega) hq
      · rw [if_neg hlt] at h
        simp only [Option.some.injEq] at h
        subst h
        exact ⟨by simp, fun p hp hq => by simp at hq; omega⟩
    · rw [if_neg hm] at h
      simp only [Option.some.injEq] at h
      subst h
      exact ⟨by simp, fun p hp hq => by simp at hq; omega⟩

/-- The rows the loop of `breakText` adds when wrapping is off: each is non-empty and
holds no newline after its first character. -/
theorem breakTextLoop_rows (breakWidth : Nat → Nat → Nat × Nat) (mem : Nat → Nat) (end_ : Nat) :
    ∀ (fuel first : Nat) (textRows out : List TextRow),
      breakTextLoop breakOnReturns breakWidth mem end_ fuel first textRows = some out →
      (∀ row ∈ textRows, row.startIndex < row.endIndex ∧
        ∀ p, row.startIndex < p → p < row.endIndex → mem p ≠ NEWLINE) →
      ∀ row ∈ out, row.startIndex < row.endIndex ∧
        ∀ p, row.startIndex < p → p < row.endIndex → mem p ≠ NEWLINE := by
  intro fuel
  induction fuel with
  | zero =>
    intro first textRows out h hrows
    unfold breakTextLoop at h
    split_ifs at h
    simp only [Option.some.injEq] at h
    subst h
    exact hrows
  | succ fuel ih =>
    intro first textRows out h hrows
    unfold breakTextLoop at h
    by_cases hlt : first < end_
    · rw [if_pos hlt] at h
      simp only [breakOnReturns, Bool.false_eq_true, if_false,
        NanoRenderer.breakTextReturns] at h
      cases hscan : scanReturns mem end_ (end_ - first + 1) first with
      | none => rw [hscan] at h; simp at h
      | some r =>
        rw [hscan] at h
        simp only [] at h
        obtain ⟨h1, h2⟩ := scanReturns_result mem end_ _ first r hscan
        apply ih _ _ _ h
        intro row hrow
        rw [List.mem_append] at hrow
        rcases hrow with hold | hnew
        · exact hrows row hold
        · simp only [List.mem_singleton] at hnew
          subst hnew
          exact ⟨h1, h2⟩
    · rw [if_neg hlt] at h
      simp only [Option.some.injEq] at h
      subst h
      exact hrows

/-- Whenever `breakText` returns with text breaking on and wrapping off, every row is
non-empty and none of its characters after the first is a newline: a newline can
only be the first character of a row. -/
theorem breakText_newline_only_first (breakWidth : Nat → Nat → Nat × Nat) (fuel : Nat)
    (text : List Nat) (rows : List TextRow)
    (h : NanoRenderer.breakText breakOnReturns breakWidth fuel text = some rows) :
    ∀ row ∈ rows, row.startIndex < row.endIndex ∧
      ∀ p, row.startIndex < p → p < row.endIndex → cstr text p ≠ NEWLINE := by
  unfold NanoRenderer.breakText at h
  simp only [breakOnReturns, not_true_eq_false, if_false] at h
  exact breakTextLoop_rows breakWidth (cstr text) text.length fuel 0 [] rows h
    (fun row hrow => by simp at hrow)

/-! ### C21: breakText terminates; its rows are non-empty, ordered and disjoint -/

/-- With enough fuel the scan of a non-empty range returns, having moved `iter` forward
and not beyond `end`. -/
theorem scanReturns_terminates (mem : Nat → Nat) (end_ : Nat) :
    ∀ fuel iter : Nat, iter < end_ → end_ - iter ≤ fuel →
      ∃ r, scanReturns mem end_ fuel iter = some r ∧ iter < r.1 ∧ r.1 ≤ end_ := by
  intro fuel
  induction fuel with
  | zero => intro iter hlt hf; omega
  | succ fuel ih =>
    intro iter hlt hf
    unfold scanReturns
    by_cases hm : mem (iter + 1) ≠ NEWLINE
    · rw [if_pos hm]
      by_cases hnext : iter + 1 < end_
      · rw [if_pos hnext]
        obtain ⟨r, hr, h1, h2⟩ := ih (iter + 1) hnext (by omega)
        rw [hr]
        exact ⟨_, rfl, by simp only; omega, h2⟩
      · rw [if_neg hnext]
        exact ⟨_, rfl, by simp, by simp only; omega⟩
    · rw [if_neg hm]
      exact ⟨_, rfl, by simp, by simp only; omega⟩

/-- One more unit of fuel does not change what the loop of `breakText` returns. -/
theorem breakTextLoop_fuel_succ (skin : TextFlags) (breakWidth : Nat → Nat → Nat × Nat)
    (mem : Nat → Nat) (end_ : Nat) :
    ∀ (fuel first : Nat) (textRows out : List TextRow),
      breakTextLoop skin breakWidth mem end_ fuel first textRows = some out →
      breakTextLoop skin breakWidth mem end_ (fuel + 1) first textRows = some out := by
  intro fuel
  induction fuel with
  | zero =>
    intro first textRows out h
    unfold breakTextLoop at h
    unfold breakTextLoop
    by_cases hlt : first < end_
    · rw [if_pos hlt] at h; simp at h
    · rw [if_neg hlt] at h; rw [if_neg hlt]; exact h
  | succ fuel ih =>
    intro first textRows out h
    unfold breakTextLoop at h
    unfold breakTextLoop
    by_cases hlt : first < end_
    · rw [if_pos hlt] at h
      rw [if_pos hlt]
      simp only [] at h ⊢
      split at h
      · exact ih _ _ _ h
      · simp at h
    · rw [if_neg hlt] at h; rw [if_neg hlt]; exact h

/-- More fuel does not change what the loop of `breakText` returns. -/
theorem breakTextLoop_fuel_le (skin : TextFlags) (breakWidth : Nat → Nat → Nat × Nat)
    (mem : Nat → Nat) (end_ : Nat) (fuel first : Nat) (textRows out : List TextRow)
    (h : breakTextLoop skin breakWidth mem end_ fuel first textRows = some out) :
    ∀ more, fuel ≤ more → breakTextLoop skin breakWidth mem end_ more first textRows = some out := by
  intro more hle
  induction more, hle using Nat.le_induction with
  | base => exact h
  | succ n _ ih => exact breakTextLoop_fuel_succ skin breakWidth mem end_ n first textRows out ih

/-- With wrapping off and fuel for the characters left, the loop of `breakText` returns:
it appends to the rows so far a chain of rows that starts at `first`, empty exactly
when `first` is not before `end`. -/
theorem breakTextLoop_chain (breakWidth : Nat → Nat → Nat × Nat) (mem : Nat → Nat) (end_ : Nat) :
    ∀ (fuel first : Nat) (textRows : List TextRow), end_ - first ≤ fuel →
      ∃ added, breakTextLoop breakOnReturns breakWidth mem end_ fuel first textRows
          = some (textRows ++ added) ∧
        RowsChained end_ first added ∧ (first < end_ → added ≠ []) ∧
        (¬ first < end_ → added = []) := by
  intro fuel
  induction fuel with
  | zero =>
    intro first textRows hf
    have hlt : ¬ first < end_ := by omega
    unfold breakTextLoop
    rw [if_neg hlt]
    exact ⟨[], by simp, trivial, fun h => absurd h hlt, fun _ => rfl⟩
  | succ fuel ih =>
    intro first textRows hf
    unfold breakTextLoop
    by_cases hlt : first < end_
    · rw [if_pos hlt]
      have hw : breakOnReturns.textWrap = false := rfl
      simp only [hw, Bool.false_eq_true, if_false, NanoRenderer.breakTextReturns]
      obtain ⟨r, hr, h1, h2⟩ := scanReturns_terminates mem end_ (end_ - first + 1) first hlt
        (by omega)
      rw [hr]
      simp only []
      obtain ⟨added, ha, hc, -, -⟩ := ih (r.1 + 1)
        (textRows ++ [{ start := first, end_ := r.1, startIndex := first, endIndex := r.1 }])
        (by omega)
      rw [ha]
      refine ⟨{ start := first, end_ := r.1, startIndex := first, endIndex := r.1 } :: added,
        by simp, ⟨rfl, h1, h2, hc⟩, fun _ => by simp, fun h => absurd hlt h⟩
    · rw [if_neg hlt]
      exact ⟨[], by simp, trivial, fun h => absurd h hlt, fun _ => rfl⟩

/-- Every row of a chain is non-empty and ends within the text. -/
theorem RowsChained.bounds (size : Nat) :
    ∀ (rows : List TextRow) (start : Nat), RowsChained size start rows →
      ∀ row ∈ rows, row.startIndex < row.endIndex ∧ row.endIndex ≤ size := by
  intro rows
  induction rows with
  | nil => intro start _ row hrow; simp at hrow
  | cons r rows ih =>
    intro start h row hrow
    obtain ⟨-, h2, h3, h4⟩ := h
    rw [List.mem_cons] at hrow
    rcases hrow with rfl | hin
    · exact ⟨h2, h3⟩
    · exact ih _ h4 row hin

/-- In a chain, each following row starts one past the end of the row before it. -/
theorem RowsChained.next (size : Nat) :
    ∀ (rows : List TextRow) (start i : Nat) (r1 r2 : TextRow), RowsChained size start rows →
      rows[i]? = some r1 → rows[i + 1]? = some r2 → r2.startIndex = r1.endIndex + 1 := by
  intro rows
  induction rows with
  | nil => intro start i r1 r2 _ h1; simp at h1
  | cons r rows ih =>
    intro start i r1 r2 h h1 h2
    obtain ⟨-, -, -, h4⟩ := h
    cases i with
    | zero =>
      simp only [List.getElem?_cons_zero, Option.some.injEq] at h1
      simp only [Nat.zero_add, List.getElem?_cons_succ] at h2
      subst h1
      cases rows with
      | nil => simp at h2
      | cons r3 rows =>
        simp only [List.getElem?_cons_zero, Option.some.injEq] at h2
        subst h2
        exact h4.1
    | succ i =>
      simp only [List.getElem?_cons_succ] at h1 h2
      exact ih _ i r1 r2 h4 h1 h2

/-- C21: with text breaking on and wrapping off, `breakText` terminates for every text:
there are rows that it returns for every fuel of at least `text.size()` loop
iterations. An empty text yields no row; otherwise the first row has `startIndex` 0;
every row has `startIndex < endIndex <= text.size()`; and each following row has
`startIndex` equal to the previous row's `endIndex + 1`, so the rows are non-empty,
ordered and disjoint. -/
theorem breakText_terminates_rows_ordered (breakWidth : Nat → Nat → Nat × Nat)
    (text : List Nat) :
    ∃ rows : List TextRow,
      (∀ fuel, text.length ≤ fuel →
        NanoRenderer.breakText breakOnReturns breakWidth fuel text = some rows) ∧
      (text = [] → rows = []) ∧
      (text ≠ [] → ∃ r, rows.head? = some r ∧ r.startIndex = 0) ∧
      (∀ row ∈ rows, row.startIndex < row.endIndex ∧ row.endIndex ≤ text.length) ∧
      (∀ (i : Nat) (r1 r2 : TextRow), rows[i]? = some r1 → rows[i + 1]? = some r2 →
        r2.startIndex = r1.endIndex + 1) := by
  obtain ⟨added, ha, hc, hne, hemp⟩ :=
    breakTextLoop_chain breakWidth (cstr text) text.length text.length 0 [] (by omega)
  rw [List.nil_append] at ha
  refine ⟨added, ?_, ?_, ?_, RowsChained.bounds _ added 0 hc, ?_⟩
  · intro fuel hfuel
    unfold NanoRenderer.breakText
    have hb : breakOnReturns.textBreak = true := rfl
    simp only [hb, not_true_eq_false, if_false]
    exact breakTextLoop_fuel_le _ _ _ _ _ _ _ _ ha fuel hfuel
  · intro ht
    apply hemp
    rw [ht]
    simp
  · intro ht
    have hpos : 0 < text.length := List.length_pos.mpr ht
    have hadd := hne hpos
    cases added with
    | nil => exact absurd rfl hadd
    | cons r rest => exact ⟨r, rfl, hc.1⟩
  · intro i r1 r2 h1 h2
    exact RowsChained.next _ added 0 i r1 r2 hc h1 h2

/-- Witness of C21 on the text "ab\ncd" (codes 97, 98, 10, 99, 100). -/
theorem breakText_terminates_rows_ordered_witness :
    ∃ rows : List TextRow,
      (∀ fuel, [97, 98, 10, 99, 100].length ≤ fuel →
        NanoRenderer.breakText breakOnReturns noBreakWidth fuel [97, 98, 10, 99, 100]
          = some rows) ∧
      ([97, 98, 10, 99, 100] = [] → rows = []) ∧
      ([97, 98, 10, 99, 100] ≠ [] → ∃ r, rows.head? = some r ∧ r.startIndex = 0) ∧
      (∀ row ∈ rows, row.startIndex < row.endIndex ∧
        row.endIndex ≤ [97, 98, 10, 99, 100].length) ∧
      (∀ (i : Nat) (r1 r2 : TextRow), rows[i]? = some r1 → rows[i + 1]? = some r2 →
        r2.startIndex = r1.endIndex + 1) :=
  breakText_terminates_rows_ordered noBreakWidth [97, 98, 10, 99, 100]

/-- The rows of "ab\ncd" are [0, 2) and [3, 5); those of the empty text are none; the
rows are the same whatever the fuel, once it suffices. -/
theorem breakText_examples :
    NanoRenderer.breakText breakOnReturns noBreakWidth 5 [97, 98, 10, 99, 100]
      = some [{ start := 0, end_ := 2, startIndex := 0, endIndex := 2 },
              { start := 3, end_ := 5, startIndex := 3, endIndex := 5 }] ∧
    NanoRenderer.breakText breakOnReturns noBreakWidth 9 [97, 98, 10, 99, 100]
      = some [{ start := 0, end_ := 2, startIndex := 0, endIndex := 2 },
              { start := 3, end_ := 5, startIndex := 3, endIndex := 5 }] ∧
    NanoRenderer.breakText breakOnReturns noBreakWidth 0 [] = some [] := by
  decide

/-! ### C22: BoxFloat::intersects over exact arithmetic -/

/-- The four comparisons of `intersects`, as a conjunction. -/
theorem intersects_iff (a b : BoxFloat) :
    a.intersects b = true ↔
      b.x ≤ a.x + a.w ∧ b.y ≤ a.y + a.h ∧ a.x ≤ b.x + b.w ∧ a.y ≤ b.y + b.h := by
  unfold BoxFloat.intersects
  simp only [Bool.not_eq_true', Bool.or_eq_false_iff, decide_eq_false_iff_not, not_lt,
    gt_iff_lt, and_assoc]

/-- C22: over exact rational arithmetic, for all boxes `a` and `b` read as (x, y, w, h)
with non-negative `w` and `h`, `a.intersects(b)` holds exactly when the closed rectangles
[x, x+w] x [y, y+h] of `a` and `b` share a point; in particular two such boxes that
touch along an edge (and so also those that touch at a corner) intersect. For all
boxes, whatever the sign of `w` and `h`, `a.intersects(b)` equals `b.intersects(a)`. -/
theorem intersects_closed_rectangles (a b : BoxFloat) :
    (0 ≤ a.w → 0 ≤ a.h → 0 ≤ b.w → 0 ≤ b.h →
      (a.intersects b = true ↔ ∃ px py : ℚ, a.inClosedRect px py ∧ b.inClosedRect px py)) ∧
    (0 ≤ a.w → 0 ≤ a.h → 0 ≤ b.w → 0 ≤ b.h →
      b.x = a.x + a.w → b.y ≤ a.y + a.h → a.y ≤ b.y + b.h → a.intersects b = true) ∧
    (0 ≤ a.w → 0 ≤ a.h → 0 ≤ b.w → 0 ≤ b.h →
      b.x = a.x + a.w → b.y = a.y + a.h → a.intersects b = true) ∧
    a.intersects b = b.intersects a := by
  refine ⟨?_, ?_, ?_, ?_⟩
  · intro haw hah hbw hbh
    rw [intersects_iff]
    constructor
    · rintro ⟨h1, h2, h3, h4⟩
      refine ⟨max a.x b.x, max a.y b.y, ⟨le_max_left _ _, ?_, le_max_left _ _, ?_⟩,
        ⟨le_max_right _ _, ?_, le_max_right _ _, ?_⟩⟩
      · exact max_le (by linarith) h1
      · exact max_le (by linarith) h2
      · exact max_le h3 (by linarith)
      · exact max_le h4 (by linarith)
    · rintro ⟨px, py, ⟨a1, a2, a3, a4⟩, ⟨b1, b2, b3, b4⟩⟩
      exact ⟨by linarith, by linarith, by linarith, by linarith⟩
  · intro haw hah hbw hbh hx hy1 hy2
    rw [intersects_iff]
    exact ⟨by linarith, hy1, by linarith, hy2⟩
  · intro haw hah hbw hbh hx hy
    rw [intersects_iff]
    exact ⟨by linarith, by linarith, by linarith, by linarith⟩
  · rw [Bool.eq_iff_iff, intersects_iff, intersects_iff]
    constructor
    · rintro ⟨h1, h2, h3, h4⟩; exact ⟨h3, h4, h1, h2⟩
    · rintro ⟨h1, h2, h3, h4⟩; exact ⟨h3, h4, h1, h2⟩

/-- Witness of C22: the unit boxes at (0, 0) and at (1, 1) touch at the corner (1, 1)
only, and intersect. -/
theorem intersects_closed_rectangles_witness :
    (BoxFloat.mk4 0 0 1 1).intersects (BoxFloat.mk4 1 1 1 1) = true :=
  (intersects_closed_rectangles (BoxFloat.mk4 0 0 1 1) (BoxFloat.mk4 1 1 1 1)).2.2.1
    (by simp [BoxFloat.mk4, BoxFloat.w]) (by simp [BoxFloat.mk4, BoxFloat.h])
    (by simp [BoxFloat.mk4, BoxFloat.w]) (by simp [BoxFloat.mk4, BoxFloat.h])
    (by simp [BoxFloat.mk4, BoxFloat.x, BoxFloat.w])
    (by simp [BoxFloat.mk4, BoxFloat.y, BoxFloat.h])

/-- With negative extents `intersects` is still symmetric but no longer tells whether
the rectangles share a point: the boxes (0, 0, -1, -1) and (5, 5, -10, -10) do not
intersect either way. -/
theorem intersects_negative_example :
    (BoxFloat.mk4 0 0 (-1) (-1)).intersects (BoxFloat.mk4 5 5 (-10) (-10)) = false ∧
    (BoxFloat.mk4 5 5 (-10) (-10)).intersects (BoxFloat.mk4 0 0 (-1) (-1)) = false := by
  constructor <;>
    simp [BoxFloat.intersects, BoxFloat.mk4, BoxFloat.x, BoxFloat.y, BoxFloat.w, BoxFloat.h] <;>
    norm_num

/-! ### C16: NanoRenderer::clipTest -/

/-- The scissor box of `clipTest` holds the four floats `nvgCurrentScissor` stored, and
its null flag is still the one of the default constructor. -/
theorem currentScissor_values (current : Fin 4 → ℚ) :
    (NanoRenderer.currentScissor current).d_values 0 = current 0 ∧
    (NanoRenderer.currentScissor current).d_values 1 = current 1 ∧
    (NanoRenderer.currentScissor current).d_values 2 = current 2 ∧
    (NanoRenderer.currentScissor current).d_values 3 = current 3 ∧
    (NanoRenderer.currentScissor current).null = true := by
  refine ⟨?_, ?_, ?_, ?_, rfl⟩ <;>
    simp [NanoRenderer.currentScissor, BoxFloat.pointerFill, BoxFloat.pointerWrite,
      Function.update]

/-- `clipTest` spelled out on the four floats of the current scissor: true exactly when
width and height are non-negative and one of the four strict comparisons of
`intersects` holds between `rect` and the scissor. -/
theorem clipTest_expanded (current : Fin 4 → ℚ) (rect : BoxFloat) :
    NanoRenderer.clipTest current rect = true ↔
      0 ≤ current 2 ∧ 0 ≤ current 3 ∧
      (current 0 > rect.x + rect.w ∨ current 1 > rect.y + rect.h ∨
        current 0 + current 2 < rect.x ∨ current 1 + current 3 < rect.y) := by
  obtain ⟨c0, c1, c2, c3, -⟩ := currentScissor_values current
  unfold NanoRenderer.clipTest
  simp only [BoxFloat.x1, BoxFloat.y1, BoxFloat.intersects, BoxFloat.x, BoxFloat.y,
    BoxFloat.w, BoxFloat.h, c0, c1, c2, c3]
  by_cases hneg : current 2 < 0 ∨ current 3 < 0
  · rw [if_pos hneg]
    constructor
    · intro h; exact absurd h (by decide)
    · intro h
      rcases hneg with h2 | h3
      · exact absurd h.1 (not_le.mpr h2)
      · exact absurd h.2.1 (not_le.mpr h3)
  · rw [if_neg hneg]
    rw [not_or, not_lt, not_lt] at hneg
    simp only [Bool.not_not, Bool.or_eq_true, decide_eq_true_eq]
    constructor
    · intro h
      refine ⟨hneg.1, hneg.2, ?_⟩
      rcases h with ((h | h) | h) | h
      · exact Or.inl h
      · exact Or.inr (Or.inl h)
      · exact Or.inr (Or.inr (Or.inl h))
      · exact Or.inr (Or.inr (Or.inr h))
    · intro h
      rcases h.2.2 with h | h | h | h
      · exact Or.inl (Or.inl (Or.inl h))
      · exact Or.inl (Or.inl (Or.inr h))
      · exact Or.inl (Or.inr h)
      · exact Or.inr h

/-- C16: `current` being the four floats (x, y, width, height) of the current scissor,
`clipTest(rect)` returns true exactly when the width `current 2` and the height
`current 3` are non-negative and `rect.intersects` of the box with these four
components is false, that is, when one of the four strict comparisons of `intersects`
holds between `rect` and the scissor. When the width or the height is negative (no
scissor set) it returns false for every rect. -/
theorem clipTest_iff (current : Fin 4 → ℚ) (rect : BoxFloat) :
    (NanoRenderer.clipTest current rect = true ↔
      0 ≤ current 2 ∧ 0 ≤ current 3 ∧
      rect.intersects (BoxFloat.mk4 (current 0) (current 1) (current 2) (current 3)) = false) ∧
    (NanoRenderer.clipTest current rect = true ↔
      0 ≤ current 2 ∧ 0 ≤ current 3 ∧
      (current 0 > rect.x + rect.w ∨ current 1 > rect.y + rect.h ∨
        current 0 + current 2 < rect.x ∨ current 1 + current 3 < rect.y)) ∧
    (current 2 < 0 ∨ current 3 < 0 → NanoRenderer.clipTest current rect = false) := by
  have hexp := clipTest_expanded current rect
  have hbox : rect.intersects (BoxFloat.mk4 (current 0) (current 1) (current 2) (current 3))
        = false ↔
      (current 0 > rect.x + rect.w ∨ current 1 > rect.y + rect.h ∨
        current 0 + current 2 < rect.x ∨ current 1 + current 3 < rect.y) := by
    rw [← Bool.not_eq_true, intersects_iff]
    simp only [BoxFloat.mk4, BoxFloat.x, BoxFloat.y, BoxFloat.w, BoxFloat.h,
      Matrix.cons_val_zero, Matrix.cons_val_one, Matrix.head_cons, Matrix.cons_val_two,
      Matrix.tail_cons, Matrix.cons_val_three, gt_iff_lt]
    constructor
    · intro h
      by_contra hc
      simp only [not_or, not_lt] at hc
      exact h ⟨hc.1, hc.2.1, hc.2.2.1, hc.2.2.2⟩
    · rintro (h | h | h | h) ⟨h1, h2, h3, h4⟩
      · exact absurd h1 (not_le.mpr h)
      · exact absurd h2 (not_le.mpr h)
      · exact absurd h3 (not_le.mpr h)
      · exact absurd h4 (not_le.mpr h)
  refine ⟨?_, hexp, ?_⟩
  · rw [hexp, hbox]
  · intro hneg
    rw [← Bool.not_eq_true, hexp]
    intro h
    rcases hneg with h2 | h3
    · exact absurd h.1 (not_le.mpr h2)
    · exact absurd h.2.1 (not_le.mpr h3)

/-- Witness of C16: with no scissor set (width and height -1), the test is false for the
rect (5, 5, 1, 1), which lies away from the point (0, 0) of the scissor. -/
theorem clipTest_iff_witness :
    ((![0, 0, -1, -1] : Fin 4 → ℚ) 2 < 0 ∨ (![0, 0, -1, -1] : Fin 4 → ℚ) 3 < 0) ∧
      NanoRenderer.clipTest ![0, 0, -1, -1] (BoxFloat.mk4 5 5 1 1) = false :=
  ⟨Or.inl (by simp), (clipTest_iff ![0, 0, -1, -1] (BoxFloat.mk4 5 5 1 1)).2.2
    (Or.inl (by simp))⟩

/-- With the scissor (0, 0, 10, 10): a rect at (20, 20) is clipped away, a rect that
touches the scissor's corner at (10, 10) is not. -/
theorem clipTest_examples :
    NanoRenderer.clipTest ![0, 0, 10, 10] (BoxFloat.mk4 20 20 1 1) = true ∧
    NanoRenderer.clipTest ![0, 0, 10, 10] (BoxFloat.mk4 10 10 1 1) = false := by
  constructor
  · rw [clipTest_expanded ![0, 0, 10, 10] (BoxFloat.mk4 20 20 1 1)]
    simp [BoxFloat.mk4, BoxFloat.x, BoxFloat.y, BoxFloat.w, BoxFloat.h]
    norm_num
  · rw [← Bool.not_eq_true, clipTest_expanded ![0, 0, 10, 10] (BoxFloat.mk4 10 10 1 1)]
    simp [BoxFloat.mk4, BoxFloat.x, BoxFloat.y, BoxFloat.w, BoxFloat.h]
    norm_num

end toy
